import Mathlib

/-!
Shallow embedding of the Knight-Commander turn-resolution engine
(TypeScript sources under src/engine), together with theorems settling the
frozen claims about its specification.

Conventions of the embedding:
* JavaScript numbers are modelled as `ℚ` where fractional values occur
  (positions, terrain, angles) and as `ℤ` where the program only ever holds
  integers (grid coordinates, armour points, die values).
* Mutation is modelled by explicit state passing: a function that mutates a
  `KnightState` in the source returns the updated `KnightState` here.
* `Math.atan2`-based `bearingDeg` is transcendental and has no exact rational
  embedding; it is abstracted as an explicit function parameter
  `bearing : Vec2 → Vec2 → ℚ`.  Everything downstream of the bearing is exact
  and embedded literally.
* Die rolls (`rollD6()`) are drawn from an explicit stream `rng : ℕ → ℤ`
  threaded by an index, used only where a dice override is absent, exactly as
  in the source (`dice.red ?? rollD6()`).
-/

namespace KnightCommander

/-! ## Basic data model (grid.ts, criticals-core.ts, core-weapons.ts) -/

/-- 2D point, `Vec2` in the source.  Coordinates in inches. -/
structure Vec2 where
  x : ℚ
  y : ℚ
deriving DecidableEq, Repr

/-- `FacingArc` from facing-arcs.ts. -/
inductive FacingArc where
  | FRONT
  | RIGHT
  | REAR
  | LEFT
deriving DecidableEq, Repr

/-- `WeaponMount` from criticals-core.ts. -/
inductive WeaponMount where
  | CARAPACE
  | TORSO
  | ARM_LEFT
  | ARM_RIGHT
  | OTHER
deriving DecidableEq, Repr

/-- `MountedWeapon` from criticals-core.ts. -/
structure MountedWeapon where
  name : String
  mount : WeaponMount
  disabled : Bool
deriving DecidableEq, Repr

/-- `DiceExpr` from core-weapons.ts. -/
inductive DiceExpr where
  | D3
  | D6
deriving DecidableEq, Repr

/-- `DamageProfile` from core-weapons.ts. -/
inductive DamageProfile where
  | flat (value : ℤ)
  | dice (dice : DiceExpr)
deriving DecidableEq, Repr

/-- `WeaponProfile` from core-weapons.ts (abilities are irrelevant to the
claims settled here and only consulted by the turn orchestrator). -/
structure WeaponProfile where
  name : String
  rangeInches : ℚ
  ap : ℤ
  damage : DamageProfile
  scatter : Bool
deriving DecidableEq, Repr

/-- `GridCell` from grid.ts.  The source type is a union of number literals
for `group`; here `group : ℕ` with values 1..8 in every instantiated grid. -/
structure GridCell where
  id : String
  x : ℤ
  y : ℤ
  group : ℕ
  armorPoints : ℤ
  maxArmorPoints : ℤ
  criticallyDamaged : Bool
deriving DecidableEq, Repr

/-- `Grid` from grid.ts. -/
structure Grid where
  width : ℤ
  height : ℤ
  cells : List GridCell
deriving DecidableEq, Repr

/-- `KnightState` from criticals-core.ts. -/
structure KnightState where
  name : String
  grid : Grid
  maxActionPoints : ℤ
  movementPenalty : ℤ
  canRotateIonShields : Bool
  weapons : List MountedWeapon
deriving DecidableEq, Repr

/-! ## Geometry (facing-arcs.ts)

JavaScript `%` is the truncated remainder (sign of the dividend); `ratTrunc`
and `jsMod` model it exactly over `ℚ`. -/

/-- Truncation toward zero, as JavaScript division-then-`Math.trunc`. -/
def ratTrunc (q : ℚ) : ℤ :=
  if 0 ≤ q then ⌊q⌋ else ⌈q⌉

/-- JavaScript `a % n` for `n > 0`: `a - n * trunc(a / n)`. -/
def jsMod (a n : ℚ) : ℚ :=
  a - n * (ratTrunc (a / n) : ℚ)

/-- `normDeg` from facing-arcs.ts: `((d % 360) + 360) % 360`. -/
def normDeg (d : ℚ) : ℚ :=
  jsMod (jsMod d 360 + 360) 360

/-- `normalizeDeltaDeg` from facing-arcs.ts: normalize to `(-180, 180]`. -/
def normalizeDeltaDeg (delta : ℚ) : ℚ :=
  let d := jsMod (jsMod (delta + 180) 360 + 360) 360 - 180
  if d = -180 then 180 else d

/-- `incomingArc` from facing-arcs.ts, with the `atan2`-based `bearingDeg`
abstracted as the `bearing` parameter (see module docstring). -/
def incomingArc (bearing : Vec2 → Vec2 → ℚ) (defenderPos : Vec2)
    (defenderFacingDeg : ℚ) (attackerPos : Vec2) : FacingArc :=
  let b := bearing defenderPos attackerPos
  let delta := normalizeDeltaDeg (b - normDeg defenderFacingDeg)
  if |delta| ≤ 45 then .FRONT
  else if 135 ≤ |delta| then .REAR
  else if 0 < delta then .RIGHT
  else .LEFT

/-! ## Damage model (damage.ts, criticals-core.ts) -/

/-- Replace the first element satisfying `p` by its image under `f`.
Models in-place mutation of a single cell found by `Array.prototype.find`. -/
def updateFirst {α : Type} (p : α → Bool) (f : α → α) : List α → List α
  | [] => []
  | c :: cs => if p c then f c :: cs else c :: updateFirst p f cs

/-- `applyCoreCriticalEffect` from criticals-core.ts.  Group 3 is handled by
`updateArmDisablesIfNeeded`; groups 2 and 7 have no mechanical effect. -/
def applyCoreCriticalEffect (knight : KnightState) (group : ℕ) : KnightState :=
  match group with
  | 1 => { knight with weapons := knight.weapons.map fun w =>
            if w.mount = .CARAPACE then { w with disabled := true } else w }
  | 4 => { knight with canRotateIonShields := false }
  | 5 => { knight with maxActionPoints := min knight.maxActionPoints 2 }
  | 6 => { knight with weapons := knight.weapons.map fun w =>
            if w.mount = .TORSO then { w with disabled := true } else w }
  | 8 => { knight with movementPenalty := knight.movementPenalty + 1 }
  | _ => knight

/-- `updateArmDisablesIfNeeded` from criticals-core.ts. -/
def updateArmDisablesIfNeeded (knight : KnightState) : KnightState :=
  let group3Cells := knight.grid.cells.filter fun c => decide (c.group = 3)
  let mid : ℚ := ((knight.grid.width : ℚ) - 1) / 2
  let leftArm := group3Cells.filter fun c => decide ((c.x : ℚ) < mid)
  let rightArm := group3Cells.filter fun c => decide (mid < (c.x : ℚ))
  let leftBothCrit := decide (2 ≤ leftArm.length) && leftArm.all (·.criticallyDamaged)
  let rightBothCrit := decide (2 ≤ rightArm.length) && rightArm.all (·.criticallyDamaged)
  let w1 := if leftBothCrit then
      knight.weapons.map fun w =>
        if w.mount = .ARM_LEFT then { w with disabled := true } else w
    else knight.weapons
  let w2 := if rightBothCrit then
      w1.map fun w =>
        if w.mount = .ARM_RIGHT then { w with disabled := true } else w
    else w1
  { knight with weapons := w2 }

/-- `markCellCriticallyDamaged` from criticals-core.ts. -/
def markCellCriticallyDamaged (knight : KnightState) (cellId : String) : KnightState :=
  match knight.grid.cells.find? (fun c => decide (c.id = cellId)) with
  | none => knight
  | some cell =>
    if cell.criticallyDamaged then knight
    else
      let k1 := { knight with grid := { knight.grid with
        cells := updateFirst (fun c => decide (c.id = cellId))
          (fun c => { c with criticallyDamaged := true }) knight.grid.cells } }
      let k2 := applyCoreCriticalEffect k1 cell.group
      if cell.group = 3 then updateArmDisablesIfNeeded k2 else k2

/-- `applyDamageToCell` from damage.ts.  The source receives the cell by
reference; both call sites pass the first cell of `knight.grid.cells` whose
id matches, so the cell is represented here by its id and re-found by
first-match lookup. -/
def applyDamageToCell (knight : KnightState) (cellId : String) (damage : ℤ) : KnightState :=
  match knight.grid.cells.find? (fun c => decide (c.id = cellId)) with
  | none => knight
  | some cell =>
    if cell.criticallyDamaged then knight
    else
      let newArmor := max 0 (cell.armorPoints - damage)
      let k1 := { knight with grid := { knight.grid with
        cells := updateFirst (fun c => decide (c.id = cellId))
          (fun c => { c with armorPoints := newArmor }) knight.grid.cells } }
      if newArmor = 0 then markCellCriticallyDamaged k1 cellId else k1

/-- `isKnightDestroyed` from damage.ts. -/
def isKnightDestroyed (knight : KnightState) : Bool :=
  decide (6 ≤ (knight.grid.cells.filter (·.criticallyDamaged)).length)

/-! ## Terrain and line of sight (terrain.ts) -/

/-- `TerrainType` from terrain.ts. -/
inductive TerrainType where
  | HARD
  | SOFT
deriving DecidableEq, Repr

/-- `Rect` from terrain.ts. -/
structure Rect where
  x : ℚ
  y : ℚ
  w : ℚ
  h : ℚ
deriving DecidableEq, Repr

/-- `TerrainPiece` from terrain.ts. -/
structure TerrainPiece where
  id : String
  type : TerrainType
  rects : List Rect
deriving DecidableEq, Repr

/-- The `clip` closure inside `segmentEnterT`: Liang–Barsky boundary clip.
State `(t0, t1)`; returns `none` when the source returns `false`. -/
def lbClip (p q : ℚ) (t0 t1 : ℚ) : Option (ℚ × ℚ) :=
  if |p| < 1 / 1000000000 then
    if q < 0 then none else some (t0, t1)
  else
    let t := q / p
    if p < 0 then
      if t1 < t then none
      else if t0 < t then some (t, t1) else some (t0, t1)
    else
      if t < t0 then none
      else if t < t1 then some (t0, t) else some (t0, t1)

/-- `segmentEnterT` from terrain.ts: entry parameter of the segment `a→b`
into rectangle `r`, or `none`. -/
def segmentEnterT (a b : Vec2) (r : Rect) : Option ℚ :=
  let dx := b.x - a.x
  let dy := b.y - a.y
  let xMin := r.x
  let xMax := r.x + r.w
  let yMin := r.y
  let yMax := r.y + r.h
  match lbClip (-dx) (a.x - xMin) 0 1 with
  | none => none
  | some (t0, t1) =>
    match lbClip dx (xMax - a.x) t0 t1 with
    | none => none
    | some (t0, t1) =>
      match lbClip (-dy) (a.y - yMin) t0 t1 with
      | none => none
      | some (t0, t1) =>
        match lbClip dy (yMax - a.y) t0 t1 with
        | none => none
        | some (t0, _) =>
          if 0 ≤ t0 ∧ t0 ≤ 1 then some t0 else none

/-- `segmentIntersectsRects` from terrain.ts. -/
def segmentIntersectsRects (a b : Vec2) (rects : List Rect) : Bool :=
  rects.any fun r => (segmentEnterT a b r).isSome

/-- Result record of `computeLosEffects`. -/
structure LosEffects where
  blocked : Bool
  obscured : Bool
  crossesAnyCover : Bool
deriving DecidableEq, Repr

/-- Loop of `computeLosEffects` with the two mutable flags as accumulators. -/
def computeLosLoop (a b : Vec2) : List TerrainPiece → Bool → Bool → LosEffects
  | [], obscured, crossesAnyCover =>
    { blocked := false, obscured := obscured, crossesAnyCover := crossesAnyCover }
  | t :: ts, obscured, crossesAnyCover =>
    if segmentIntersectsRects a b t.rects then
      match t.type with
      | .HARD => { blocked := true, obscured := false, crossesAnyCover := true }
      | .SOFT => computeLosLoop a b ts true true
    else computeLosLoop a b ts obscured crossesAnyCover

/-- `computeLosEffects` from terrain.ts. -/
def computeLosEffects (a b : Vec2) (terrain : List TerrainPiece) : LosEffects :=
  computeLosLoop a b terrain false false

/-! ## Grid pathfinding (execute-turn.ts, `findPathManhattan`)

BFS lattice nodes are modelled as `ℤ × ℤ`; the source's string map keys
`"x,y"` are in bijection with them.  The BFS loop is written with explicit
fuel; `bfsFuel` exceeds the number of loop iterations possible on the
`(boardSize+1)²`-node lattice, so the fuel is never exhausted. -/

/-- JavaScript `Math.round` (half toward positive infinity). -/
def jsRound (q : ℚ) : ℤ := ⌊q + 1 / 2⌋

/-- The `isBlocked` closure of `findPathManhattan`: outside board bounds, or
inside any terrain rectangle under the half-open interval test. -/
def isBlocked (terrain : List TerrainPiece) (boardSize : ℤ) (n : ℤ × ℤ) : Bool :=
  if n.1 < 0 ∨ n.2 < 0 ∨ boardSize < n.1 ∨ boardSize < n.2 then true
  else terrain.any fun t => t.rects.any fun r =>
    decide (r.x ≤ (n.1 : ℚ) ∧ (n.1 : ℚ) < r.x + r.w ∧ r.y ≤ (n.2 : ℚ) ∧ (n.2 : ℚ) < r.y + r.h)

/-- The four 4-connected step directions, in source order. -/
def bfsDirs : List (ℤ × ℤ) := [(1, 0), (-1, 0), (0, 1), (0, -1)]

/-- First-match lookup in the predecessor association list (JS `Map.get`;
`Map.set` is modelled by consing, which shadows on first-match lookup). -/
def lookupKey : List ((ℤ × ℤ) × (ℤ × ℤ)) → (ℤ × ℤ) → Option (ℤ × ℤ)
  | [], _ => none
  | (k, v) :: rest, n => if k = n then some v else lookupKey rest n

/-- Path-reconstruction loop of `findPathManhattan` (`while (prev.has(back))`).
Fuel `prev.length` bounds the chain length. -/
def reconstructGo (prev : List ((ℤ × ℤ) × (ℤ × ℤ))) (s : ℤ × ℤ) :
    ℕ → (ℤ × ℤ) → List (ℤ × ℤ) → List (ℤ × ℤ)
  | 0, _, out => out.reverse
  | fuel + 1, back, out =>
    match lookupKey prev back with
    | none => out.reverse
    | some p =>
      if p = s then (out ++ [p]).reverse
      else reconstructGo prev s fuel p (out ++ [p])

/-- Path reconstruction from the goal back to the start. -/
def reconstructPath (prev : List ((ℤ × ℤ) × (ℤ × ℤ))) (g s : ℤ × ℤ) : List (ℤ × ℤ) :=
  reconstructGo prev s prev.length g [g]

/-- Inner `for (const d of dirs)` loop of the BFS: either finds the goal and
returns the reconstructed path (`Sum.inl`) or returns the updated
`(prev, seen, q)` state (`Sum.inr`). -/
def bfsDirsLoop (blocked : ℤ × ℤ → Bool) (s g cur : ℤ × ℤ) :
    List (ℤ × ℤ) → List ((ℤ × ℤ) × (ℤ × ℤ)) → List (ℤ × ℤ) → List (ℤ × ℤ) →
    Sum (List (ℤ × ℤ)) (List ((ℤ × ℤ) × (ℤ × ℤ)) × List (ℤ × ℤ) × List (ℤ × ℤ))
  | [], prev, seen, q => .inr (prev, seen, q)
  | d :: ds, prev, seen, q =>
    let n : ℤ × ℤ := (cur.1 + d.1, cur.2 + d.2)
    if n ∈ seen then bfsDirsLoop blocked s g cur ds prev seen q
    else if blocked n then bfsDirsLoop blocked s g cur ds prev seen q
    else
      let prev' := (n, cur) :: prev
      if n = g then .inl (reconstructPath prev' g s)
      else bfsDirsLoop blocked s g cur ds prev' (n :: seen) (q ++ [n])

/-- Outer `while (q.length)` loop of the BFS, with fuel. -/
def bfsLoop (blocked : ℤ × ℤ → Bool) (s g : ℤ × ℤ) :
    ℕ → List (ℤ × ℤ) → List ((ℤ × ℤ) × (ℤ × ℤ)) → List (ℤ × ℤ) →
    Option (List (ℤ × ℤ))
  | 0, _, _, _ => none
  | _ + 1, [], _, _ => none
  | fuel + 1, cur :: q, prev, seen =>
    match bfsDirsLoop blocked s g cur bfsDirs prev seen q with
    | .inl path => some path
    | .inr (prev', seen', q') => bfsLoop blocked s g fuel q' prev' seen'

/-- Fuel for the BFS outer loop: strictly more than the iterations possible
on a `49 × 49` board (each iteration pops a node enqueued at most once). -/
def bfsFuel : ℕ := 10000

/-- `findPathManhattan` from execute-turn.ts. -/
def findPathManhattan (start goal : Vec2) (terrain : List TerrainPiece)
    (boardSize : ℤ := 48) : Option (List (ℤ × ℤ)) :=
  let s : ℤ × ℤ := (jsRound start.x, jsRound start.y)
  let g : ℤ × ℤ := (jsRound goal.x, jsRound goal.y)
  if isBlocked terrain boardSize s then none
  else if isBlocked terrain boardSize g then none
  else if s = g then some [s]
  else bfsLoop (isBlocked terrain boardSize) s g bfsFuel [s] [] [s]

/-! ### Specification-side notions for the pathfinder

`Adj` is one 4-connected step; `ValidRoute` is what the spec calls a route:
a non-empty 4-connected cell sequence from the rounded start to the rounded
goal avoiding every blocked cell.  `wfPrev` and `Reaches` are the
invariant-side view of the predecessor map used in the soundness proof. -/

/-- One 4-connected step (the `dirs` of `findPathManhattan`). -/
def Adj (a b : ℤ × ℤ) : Prop :=
  ∃ d ∈ bfsDirs, b = (a.1 + d.1, a.2 + d.2)

/-- A valid 4-connected route from `s` to `g` through unblocked cells. -/
def ValidRoute (blocked : ℤ × ℤ → Bool) (s g : ℤ × ℤ) (p : List (ℤ × ℤ)) : Prop :=
  p ≠ [] ∧ p.head? = some s ∧ p.getLast? = some g
    ∧ List.Chain' Adj p ∧ ∀ n ∈ p, blocked n = false

/-- The predecessor list is well-founded toward `s`: every entry's value is
`s` or a key inserted earlier (further down the list). -/
def wfPrev (s : ℤ × ℤ) : List ((ℤ × ℤ) × (ℤ × ℤ)) → Prop
  | [] => True
  | (_, v) :: rest => (v = s ∨ v ∈ rest.map Prod.fst) ∧ wfPrev s rest

/-- Following `lookupKey` from `back` reaches `s` within `fuel` steps. -/
inductive Reaches (prev : List ((ℤ × ℤ) × (ℤ × ℤ))) (s : ℤ × ℤ) : ℕ → (ℤ × ℤ) → Prop
  | base (fuel : ℕ) (back : ℤ × ℤ) :
      lookupKey prev back = some s → Reaches prev s (fuel + 1) back
  | step (fuel : ℕ) (back p : ℤ × ℤ) :
      lookupKey prev back = some p → p ≠ s → Reaches prev s fuel p →
      Reaches prev s (fuel + 1) back

/-- The BFS loop invariant over the state `(q, prev, seen)`. -/
def BfsInv (blocked : ℤ × ℤ → Bool) (s : ℤ × ℤ) (q : List (ℤ × ℤ))
    (prev : List ((ℤ × ℤ) × (ℤ × ℤ))) (seen : List (ℤ × ℤ)) : Prop :=
  (∀ n ∈ seen, blocked n = false)
  ∧ (∀ n ∈ q, n ∈ seen)
  ∧ (prev.map Prod.fst).Nodup
  ∧ (∀ kv ∈ prev, kv.1 ∈ seen)
  ∧ (∀ kv ∈ prev, kv.2 ∈ seen)
  ∧ (∀ kv ∈ prev, Adj kv.2 kv.1)
  ∧ s ∈ seen
  ∧ (∀ n ∈ seen, n = s ∨ n ∈ prev.map Prod.fst)
  ∧ wfPrev s prev

/-! ## Attack resolution (resolve-attack.ts) -/

/-- `AttackType` from resolve-attack.ts. -/
inductive AttackType where
  | SNAP
  | STANDARD
  | AIMED
deriving DecidableEq, Repr

/-- Horizontal scatter direction (`DirH` in the source). -/
inductive DirH where
  | LEFT
  | RIGHT
  | HIT
deriving DecidableEq, Repr

/-- Vertical scatter direction (`DirV` in the source). -/
inductive DirV where
  | UP
  | DOWN
  | HIT
deriving DecidableEq, Repr

/-- `DiceOverrides` from resolve-attack.ts: test-injectable die values. -/
structure DiceOverrides where
  red : Option ℤ := none
  blue : Option ℤ := none
  ionSave : Option ℤ := none
  save : Option ℤ := none
  damageD6 : Option ℤ := none
  damageD3 : Option ℤ := none
deriving DecidableEq, Repr

/-- `ScatterLog` from resolve-attack.ts. -/
structure ScatterLog where
  red : ℤ
  redRaw : Option ℤ
  blue : ℤ
  horizSymbol : String
  vertSymbol : String
  horizShift : ℤ
  vertShift : ℤ
deriving DecidableEq, Repr

/-- `IonSaveLog` from resolve-attack.ts. -/
structure IonSaveLog where
  attempted : Bool
  die : ℤ
  needed : ℤ
  success : Bool
deriving DecidableEq, Repr

/-- The `mods` field of `ArmourSaveLog`. -/
structure ArmourSaveMods where
  ap : ℤ
  cover : Bool
deriving DecidableEq, Repr

/-- `ArmourSaveLog` from resolve-attack.ts. -/
structure ArmourSaveLog where
  roll : ℤ
  die : ℤ
  needed : ℤ
  mods : ArmourSaveMods
deriving DecidableEq, Repr

/-- Which save stopped the attack. -/
inductive SavedBy where
  | ION
  | ARMOUR
deriving DecidableEq, Repr

/-- `AttackOutcome` from resolve-attack.ts (tagged union). -/
inductive AttackOutcome where
  | MISS (targetCellId : String) (finalCellId : Option String) (reason : String)
      (incomingArc : FacingArc) (scatter : Option ScatterLog)
  | SAVED (targetCellId : String) (finalCellId : String) (cellId : String)
      (incomingArc : FacingArc) (savedBy : SavedBy) (ionSave : Option IonSaveLog)
      (armourSave : Option ArmourSaveLog) (scatter : Option ScatterLog)
  | HIT (targetCellId : String) (finalCellId : String) (cellId : String)
      (incomingArc : FacingArc) (ionSave : Option IonSaveLog)
      (armourSave : ArmourSaveLog) (damage : ℤ) (destroyed : Bool)
      (scatter : Option ScatterLog)
deriving DecidableEq, Repr

/-- The `ionSave` log carried by an outcome, if any. -/
def AttackOutcome.ionLog : AttackOutcome → Option IonSaveLog
  | .MISS _ _ _ _ _ => none
  | .SAVED _ _ _ _ _ ion _ _ => ion
  | .HIT _ _ _ _ ion _ _ _ _ => ion

/-- The `armourSave` log carried by an outcome, if any. -/
def AttackOutcome.armourLog : AttackOutcome → Option ArmourSaveLog
  | .MISS _ _ _ _ _ => none
  | .SAVED _ _ _ _ _ _ save _ => save
  | .HIT _ _ _ _ _ save _ _ _ => some save

/-- The `scatter` log carried by an outcome, if any. -/
def AttackOutcome.scatterLog : AttackOutcome → Option ScatterLog
  | .MISS _ _ _ _ sc => sc
  | .SAVED _ _ _ _ _ _ _ sc => sc
  | .HIT _ _ _ _ _ _ _ _ sc => sc

/-- True exactly on `MISS` and `SAVED` outcomes. -/
def AttackOutcome.isMissOrSaved : AttackOutcome → Bool
  | .MISS _ _ _ _ _ => true
  | .SAVED _ _ _ _ _ _ _ _ => true
  | .HIT _ _ _ _ _ _ _ _ _ => false

/-- True exactly on `SAVED`-by-`ION` outcomes. -/
def AttackOutcome.isSavedByIon : AttackOutcome → Bool
  | .SAVED _ _ _ _ .ION _ _ _ => true
  | _ => false

/-- `verticalShift` from resolve-attack.ts: blue-die shift table. -/
def verticalShift (attackType : AttackType) (roll : ℤ) : DirV × ℤ :=
  match attackType with
  | .AIMED =>
    if roll = 1 then (.UP, 1)
    else if roll = 6 then (.DOWN, 1)
    else (.HIT, 0)
  | .STANDARD =>
    if roll = 1 then (.UP, 2)
    else if roll = 2 then (.UP, 1)
    else if roll = 5 then (.DOWN, 1)
    else if roll = 6 then (.DOWN, 2)
    else (.HIT, 0)
  | .SNAP =>
    if roll = 1 then (.UP, 3)
    else if roll = 2 then (.UP, 2)
    else if roll = 3 then (.UP, 1)
    else if roll = 4 then (.DOWN, 1)
    else if roll = 5 then (.DOWN, 2)
    else (.DOWN, 3)

/-- `horizontalShift` from resolve-attack.ts: red-die shift table. -/
def horizontalShift (attackType : AttackType) (roll : ℤ) : DirH × ℤ :=
  match attackType with
  | .AIMED =>
    if roll = 1 then (.LEFT, 1)
    else if roll = 6 then (.RIGHT, 1)
    else (.HIT, 0)
  | .STANDARD =>
    if roll = 1 then (.LEFT, 2)
    else if roll = 2 then (.LEFT, 1)
    else if roll = 5 then (.RIGHT, 1)
    else if roll = 6 then (.RIGHT, 2)
    else (.HIT, 0)
  | .SNAP =>
    if roll = 1 then (.LEFT, 3)
    else if roll = 2 then (.LEFT, 2)
    else if roll = 3 then (.LEFT, 1)
    else if roll = 4 then (.RIGHT, 1)
    else if roll = 5 then (.RIGHT, 2)
    else (.RIGHT, 3)

/-- `"x".repeat(n)` for a single character. -/
def repeatChar (c : Char) (n : ℕ) : String :=
  String.mk (List.replicate n c)

/-- `horizSymbol` from resolve-attack.ts. -/
def horizSymbol (dir : DirH) (shift : ℤ) : String :=
  if dir = .HIT ∨ shift = 0 then "[+]"
  else
    let arrows := if dir = .LEFT then repeatChar '←' shift.toNat else repeatChar '→' shift.toNat
    "[" ++ arrows ++ "]"

/-- `vertSymbol` from resolve-attack.ts. -/
def vertSymbol (dir : DirV) (shift : ℤ) : String :=
  if dir = .HIT ∨ shift = 0 then "[+]"
  else
    let arrows := if dir = .UP then repeatChar '↑' shift.toNat else repeatChar '↓' shift.toNat
    "[" ++ arrows ++ "]"

/-- Draw a die: use the override if present, otherwise the next stream value
(`dice.x ?? rollD6()`).  Returns the value and the next stream index. -/
def drawDie (o : Option ℤ) (rng : ℕ → ℤ) (k : ℕ) : ℤ × ℕ :=
  match o with
  | some v => (v, k)
  | none => (rng k, k + 1)

/-- The argument object of `resolveAttackMutating`. -/
structure ResolveArgs where
  attacker : KnightState
  defender : KnightState
  attackerPos : Vec2
  defenderPos : Vec2
  defenderFacingDeg : ℚ
  defenderIonShieldArc : Option FacingArc := none
  weapon : WeaponProfile
  attackType : AttackType
  targetCellId : String
  targetObscured : Bool
  grid : Grid
  dice : Option DiceOverrides := none
deriving Repr

/-- Result of `resolveAttackMutating`: the outcome plus the two knight states
after the call (the source mutates `defender` in place via
`applyDamageToCell` and never writes `attacker`). -/
structure ResolveResult where
  outcome : AttackOutcome
  attacker : KnightState
  defender : KnightState
deriving Repr

/-- The scatter block of `resolveAttackMutating` (the `if (weapon.scatter)`
body in resolve-attack.ts): rolls the red and blue dice, builds the scatter
log and resolves the final cell, returning `none` for the cell when the shot
leaves the grid, together with the log and the next die index. -/
def scatterResolve (rng : ℕ → ℤ) (args : ResolveArgs) (horizMod : ℤ)
    (startCell : GridCell) : Option GridCell × Option ScatterLog × ℕ :=
  let dice := args.dice.getD {}
  if args.weapon.scatter then
    let rr := drawDie dice.red rng 0
    let redRaw := rr.1
    let red := max 1 (min 6 (redRaw + horizMod))
    let bb := drawDie dice.blue rng rr.2
    let blue := bb.1
    let hs := horizontalShift args.attackType red
    let vs := verticalShift args.attackType blue
    let sc : ScatterLog :=
      { red := red
        redRaw := if red ≠ redRaw then some redRaw else none
        blue := blue
        horizSymbol := horizSymbol hs.1 hs.2
        vertSymbol := vertSymbol vs.1 vs.2
        horizShift := hs.2
        vertShift := vs.2 }
    let dx := match hs.1 with | .LEFT => -hs.2 | .RIGHT => hs.2 | .HIT => 0
    let dy := match vs.1 with | .UP => -vs.2 | .DOWN => vs.2 | .HIT => 0
    let nx := startCell.x + dx
    let ny := startCell.y + dy
    if nx < 0 ∨ ny < 0 ∨ args.defender.grid.width ≤ nx ∨ args.defender.grid.height ≤ ny then
      (none, some sc, bb.2)
    else
      (args.defender.grid.cells.find? (fun c => decide (c.x = nx ∧ c.y = ny)), some sc, bb.2)
  else (some startCell, none, 0)

/-- The armour-save and damage tail of `resolveAttackMutating` (everything
from the `const saveDie = ...` line on in resolve-attack.ts), reached when
no ion save succeeded; `ionSave` carries the failed ion log if one was
rolled and `k1` is the next die index. -/
def armourAndDamage (rng : ℕ → ℤ) (args : ResolveArgs) (arc : FacingArc)
    (apBonus damageBonus : ℤ) (liveCell : GridCell) (scatter : Option ScatterLog)
    (ionSave : Option IonSaveLog) (k1 : ℕ) : ResolveResult :=
  let dice := args.dice.getD {}
  let sd := drawDie dice.save rng k1
  let saveDie := sd.1
  let coverBonus : ℤ := if args.targetObscured then 1 else 0
  let effectiveAp := args.weapon.ap + apBonus
  let saveRoll := saveDie + effectiveAp + coverBonus
  let armourSave : ArmourSaveLog :=
    { roll := saveRoll, die := saveDie, needed := 5,
      mods := { ap := effectiveAp, cover := decide (coverBonus = 1) } }
  if 5 ≤ saveRoll then
    { outcome := .SAVED args.targetCellId liveCell.id liveCell.id arc .ARMOUR
        ionSave (some armourSave) scatter,
      attacker := args.attacker, defender := args.defender }
  else
    let dmgStep : ℤ × ℕ :=
      match args.weapon.damage with
      | .flat v => (v, sd.2)
      | .dice .D6 => drawDie dice.damageD6 rng sd.2
      | .dice .D3 =>
        match dice.damageD3 with
        | some v => (v, sd.2)
        | none =>
          let dd := drawDie dice.damageD6 rng sd.2
          (⌈(dd.1 : ℚ) / 2⌉, dd.2)
    let damage := max 0 (dmgStep.1 + damageBonus)
    let defender2 := applyDamageToCell args.defender liveCell.id damage
    let destroyed := isKnightDestroyed defender2
    { outcome := .HIT args.targetCellId liveCell.id liveCell.id arc
        ionSave armourSave damage destroyed scatter,
      attacker := args.attacker, defender := defender2 }

/-- `resolveAttackMutating` from resolve-attack.ts, state-passing style.
`bearing` abstracts `bearingDeg` (atan2); `rng` supplies `rollD6()` values
for any die without an override, in evaluation order.  The scatter block and
the armour-save/damage tail are the helper functions above. -/
def resolveAttackMutating (bearing : Vec2 → Vec2 → ℚ) (rng : ℕ → ℤ)
    (args : ResolveArgs) : ResolveResult :=
  let defender := args.defender
  let dice := args.dice.getD {}
  let arc := incomingArc bearing args.defenderPos args.defenderFacingDeg args.attackerPos
  let shieldArc := args.defenderIonShieldArc.getD .FRONT
  let horizMod : ℤ := if arc = .LEFT then -1 else if arc = .RIGHT then 1 else 0
  let damageBonus : ℤ := if arc = .LEFT ∨ arc = .RIGHT ∨ arc = .REAR then 1 else 0
  let apBonus : ℤ := if arc = .REAR then -1 else 0
  match defender.grid.cells.find? (fun c => decide (c.id = args.targetCellId)) with
  | none =>
    { outcome := .MISS args.targetCellId none "Target cell not found on defender grid." arc none,
      attacker := args.attacker, defender := defender }
  | some startCell =>
    let scatterStep := scatterResolve rng args horizMod startCell
    match scatterStep.1 with
    | none =>
      { outcome := .MISS args.targetCellId none "Scatter moved shot off-grid." arc scatterStep.2.1,
        attacker := args.attacker, defender := defender }
    | some finalCell =>
      let scatter := scatterStep.2.1
      let k0 := scatterStep.2.2
      let liveCell := (defender.grid.cells.find? (fun c => decide (c.id = finalCell.id))).getD finalCell
      if liveCell.armorPoints ≤ 0 then
        { outcome := .MISS args.targetCellId (some liveCell.id)
            "Final location has no Armour Points remaining." arc scatter,
          attacker := args.attacker, defender := defender }
      else
        let ionApplies := args.weapon.scatter && decide (arc = shieldArc)
        if ionApplies then
          let idie := drawDie dice.ionSave rng k0
          let ionDie := idie.1
          let ionSave : IonSaveLog :=
            { attempted := true, die := ionDie, needed := 4, success := decide (4 ≤ ionDie) }
          if 4 ≤ ionDie then
            { outcome := .SAVED args.targetCellId liveCell.id liveCell.id arc .ION
                (some ionSave) none scatter,
              attacker := args.attacker, defender := defender }
          else armourAndDamage rng args arc apBonus damageBonus liveCell scatter (some ionSave) idie.2
        else armourAndDamage rng args arc apBonus damageBonus liveCell scatter none k0

/-- `isKnightDestroyed` after `applyDamageToCell`, as a function of the grid
alone; the congruence lemmas below show attack resolution depends on the
defender only through its grid. -/
def destroyedAfter (g : Grid) (cid : String) (dmg : ℤ) : Bool :=
  isKnightDestroyed (applyDamageToCell
    { name := "", grid := g, maxActionPoints := 0, movementPenalty := 0,
      canRotateIonShields := false, weapons := [] } cid dmg)


/-! ## Concrete example inputs

Used by the evaluation theorems and witnesses below.  `zeroBearing` stands in
for `bearingDeg` in scenarios where the attacker sits due east of the
defender (bearing 0°); `oneRng` is an arbitrary die stream for positions
where every die is overridden. -/

/-- Bearing function returning 0° (attacker due east of the defender). -/
def zeroBearing : Vec2 → Vec2 → ℚ := fun _ _ => 0

/-- Arbitrary die stream (all rolls 1); unused when overrides are complete. -/
def oneRng : ℕ → ℤ := fun _ => 1

/-- A grid cell at the grid's `(0,0)` corner with 3 armour points. -/
def cellA1 : GridCell :=
  { id := "A1", x := 0, y := 0, group := 2, armorPoints := 3, maxArmorPoints := 3,
    criticallyDamaged := false }

/-- The same cell already critically damaged (armour expended). -/
def cellA1crit : GridCell :=
  { cellA1 with armorPoints := 0, criticallyDamaged := true }

/-- A minimal defender grid holding only `cellA1`. -/
def gridA : Grid := { width := 9, height := 6, cells := [cellA1] }

/-- A defender with `gridA` and an active special-defensive capability. -/
def knightA : KnightState :=
  { name := "Defender", grid := gridA, maxActionPoints := 3, movementPenalty := 0,
    canRotateIonShields := true, weapons := [] }

/-- `knightA` with its only cell already critically damaged. -/
def knightACrit : KnightState :=
  { knightA with grid := { gridA with cells := [cellA1crit] } }

/-- `knightA` with the special-defensive capability flag revoked (the state
after a group-4 critical). -/
def knightNoIon : KnightState := { knightA with canRotateIonShields := false }

/-- A scatter-capable (ranged) test weapon with flat damage. -/
def weaponTestCannon : WeaponProfile :=
  { name := "Test Cannon", rangeInches := 24, ap := 0, damage := .flat 1, scatter := true }

/-- A melee (non-scatter) test weapon with flat damage. -/
def weaponTestSword : WeaponProfile :=
  { name := "Test Sword", rangeInches := 1, ap := 0, damage := .flat 1, scatter := false }

/-- Scenario for C1: melee attack from the FRONT, save die forced to 4, no
cover, ap 0, against a defender who performed the special defensive action
this turn (the orchestrator grants `rotateArmourBonus = 1` and passes it as
`defenderArmourSaveBonus`). -/
def argsC1 : ResolveArgs :=
  { attacker := knightA, defender := knightA, attackerPos := ⟨10, 0⟩,
    defenderPos := ⟨0, 0⟩, defenderFacingDeg := 0, weapon := weaponTestSword,
    attackType := .STANDARD, targetCellId := "A1", targetObscured := false,
    grid := gridA, dice := some { save := some 4 } }

/-- Scenario for C2: ranged attack on the protected (FRONT) arc against a
defender whose capability flag has been revoked; ion die forced to 4,
scatter dice forced to 3/3 (no shift on STANDARD). -/
def argsC2 : ResolveArgs :=
  { attacker := knightNoIon, defender := knightNoIon, attackerPos := ⟨10, 0⟩,
    defenderPos := ⟨0, 0⟩, defenderFacingDeg := 0, weapon := weaponTestCannon,
    attackType := .STANDARD, targetCellId := "A1", targetObscured := false,
    grid := gridA, dice := some { red := some 3, blue := some 3, ionSave := some 4 } }

/-- Scenario for C3 (spec example B): SNAP shot at the `(0,0)` corner cell
with red and blue dice forced to 1, incoming arc FRONT. -/
def argsC3 : ResolveArgs :=
  { attacker := knightA, defender := knightA, attackerPos := ⟨10, 0⟩,
    defenderPos := ⟨0, 0⟩, defenderFacingDeg := 0, weapon := weaponTestCannon,
    attackType := .SNAP, targetCellId := "A1", targetObscured := false,
    grid := gridA, dice := some { red := some 1, blue := some 1 } }

/-- A critically damaged filler cell for destruction-count examples. -/
def critCellAt (i : ℤ) : GridCell :=
  { id := "X" ++ toString i, x := i, y := 1, group := 2, armorPoints := 0,
    maxArmorPoints := 1, criticallyDamaged := true }

/-- A grid with exactly 5 critically damaged cells. -/
def grid5crit : Grid :=
  { width := 9, height := 6, cells := cellA1 :: ((List.range 5).map fun i => critCellAt i) }

/-- A grid with exactly 6 critically damaged cells. -/
def grid6crit : Grid :=
  { width := 9, height := 6, cells := cellA1 :: ((List.range 6).map fun i => critCellAt i) }

/-- A knight with exactly 5 critically damaged cells. -/
def knight5crit : KnightState := { knightA with grid := grid5crit }

/-- A knight with exactly 6 critically damaged cells. -/
def knight6crit : KnightState := { knightA with grid := grid6crit }

/-- A group-3 (arm) cell for the arm-disable cascade example. -/
def armCellAt (s : String) (i : ℤ) : GridCell :=
  { id := s, x := i, y := 2, group := 3, armorPoints := 1, maxArmorPoints := 1,
    criticallyDamaged := false }

/-- A grid with two left-arm and two right-arm group-3 cells (width 5,
midline x = 2). -/
def gridArms : Grid :=
  { width := 5, height := 6,
    cells := [armCellAt "L1" 0, armCellAt "L2" 1, armCellAt "R1" 3, armCellAt "R2" 4] }

/-- A knight with `gridArms` and one weapon on each arm, both enabled. -/
def knightArms : KnightState :=
  { name := "Arms", grid := gridArms, maxActionPoints := 3, movementPenalty := 0,
    canRotateIonShields := true,
    weapons := [{ name := "LW", mount := .ARM_LEFT, disabled := false },
                { name := "RW", mount := .ARM_RIGHT, disabled := false }] }

/-- A fully blocking terrain piece crossing the segment `(0,0)→(10,0)`. -/
def hardPiece : TerrainPiece :=
  { id := "H1", type := .HARD, rects := [{ x := 4, y := -1, w := 2, h := 2 }] }

/-- An attenuating terrain piece crossing the segment `(0,0)→(10,0)`. -/
def softPiece : TerrainPiece :=
  { id := "S1", type := .SOFT, rects := [{ x := 1, y := -1, w := 2, h := 2 }] }

/-- A hard wall occupying lattice cells with x = 2, 0 ≤ y < 47. -/
def wallPiece : TerrainPiece :=
  { id := "W", type := .HARD, rects := [{ x := 2, y := 0, w := 1, h := 47 }] }

/-! # Theorems -/

/-! ## Evaluation lemmas for the concrete scenarios -/

lemma normDeg_zero_eval : normDeg 0 = 0 := by
  norm_num [normDeg, jsMod, ratTrunc]

lemma normalizeDeltaDeg_zero_eval : normalizeDeltaDeg 0 = 0 := by
  norm_num [normalizeDeltaDeg, jsMod, ratTrunc]

lemma arc_front_eval (dp ap : Vec2) : incomingArc zeroBearing dp 0 ap = .FRONT := by
  simp [incomingArc, zeroBearing, normDeg_zero_eval, normalizeDeltaDeg_zero_eval]

/-! ## C5: destroyed threshold -/

/-- C5: a Knight is destroyed exactly when the count of critically damaged
cells in its grid is at least 6, regardless of which groups those cells
belong to (the count never consults `group`); in particular exactly 5
critically damaged cells is not destroyed and 6 is. -/
theorem claim_C5_destroyed_threshold :
    ∀ k : KnightState,
      (isKnightDestroyed k = true ↔
        6 ≤ (k.grid.cells.filter (·.criticallyDamaged)).length)
      ∧ ((k.grid.cells.filter (·.criticallyDamaged)).length = 5 →
        isKnightDestroyed k = false)
      ∧ ((k.grid.cells.filter (·.criticallyDamaged)).length = 6 →
        isKnightDestroyed k = true) := by
  intro k
  refine ⟨?_, ?_, ?_⟩
  · simp [isKnightDestroyed]
  · intro h
    simp [isKnightDestroyed, h]
  · intro h
    simp [isKnightDestroyed, h]

/-- C5 witness: a knight with exactly 5 critically damaged cells is not
destroyed; one with 6 is. -/
theorem claim_C5_destroyed_threshold_witness :
    isKnightDestroyed knight5crit = false ∧ isKnightDestroyed knight6crit = true :=
  ⟨(claim_C5_destroyed_threshold knight5crit).2.1 (by decide),
   (claim_C5_destroyed_threshold knight6crit).2.2 (by decide)⟩

/-! ## C1: the temporary armour-save bonus from the special defensive action

`executeTurnMutating` tracks `rotateArmourBonus` after a ROTATE_ION_SHIELDS
step and passes it to `resolveAttackMutating` as `defenderArmourSaveBonus`,
but `resolveAttackMutating`'s parameter list has no such field and its
armour-save total is `saveDie + effectiveAp + coverBonus` with no bonus
term, so the granted +1 never reaches the save. -/

/-- C1: at the failing input (special defensive action performed, save die 4,
weapon ap 0, FRONT arc, no cover) the spec requires total 4+0+0+1 = 5 and a
save; the code computes total 4 and proceeds to a HIT.  This evaluates the
embedded code at that input: the armour-save roll is 4 (no bonus term) and
the outcome is HIT. -/
theorem claim_C1_rotate_bonus_dropped :
    (resolveAttackMutating zeroBearing oneRng argsC1).outcome =
      .HIT "A1" "A1" "A1" .FRONT none
        { roll := 4, die := 4, needed := 5, mods := { ap := 0, cover := false } }
        1 false none := by
  simp [resolveAttackMutating, scatterResolve, armourAndDamage, argsC1, knightA, gridA, cellA1, weaponTestSword,
    arc_front_eval, drawDie, applyDamageToCell, markCellCriticallyDamaged,
    isKnightDestroyed, updateFirst]

/-! ## C3: spec example scenario B (scatter off the grid) -/

/-- C3 counterexample: in scenario B (SNAP, forced red die 1, FRONT arc) the
horizontal shift is LEFT 3, not LEFT 2 as the claim states: the SNAP row of
`horizontalShift` maps roll 1 to a 3-square shift. -/
theorem claim_C3_counterexample :
    (resolveAttackMutating zeroBearing oneRng argsC3).outcome.scatterLog.map
        (·.horizShift) = some 3
    ∧ ¬ ((resolveAttackMutating zeroBearing oneRng argsC3).outcome.scatterLog.map
        (·.horizShift) = some 2) := by
  simp [resolveAttackMutating, scatterResolve, armourAndDamage, argsC3, knightA, gridA, cellA1, weaponTestCannon,
    arc_front_eval, drawDie, horizontalShift, verticalShift, AttackOutcome.scatterLog]

/-- C3 (amended): with the target cell at `(0,0)`, a SNAP scatter attack with
forced red 1 and blue 1 under a FRONT arc shifts LEFT 3 and UP 3, moving the
shot to a coordinate negative on both axes, so the outcome is MISS with
reason "Scatter moved shot off-grid." and a null `finalCellId`. -/
theorem claim_C3_scatter_off_grid :
    (resolveAttackMutating zeroBearing oneRng argsC3).outcome =
      .MISS "A1" none "Scatter moved shot off-grid." .FRONT
        (some { red := 1, redRaw := none, blue := 1, horizSymbol := "[←←←]",
                vertSymbol := "[↑↑↑]", horizShift := 3, vertShift := 3 })
    ∧ cellA1.x + -3 < 0 ∧ cellA1.y + -3 < 0 := by
  refine ⟨?_, by simp [cellA1], by simp [cellA1]⟩
  simp [resolveAttackMutating, scatterResolve, armourAndDamage, argsC3, knightA, gridA, cellA1, weaponTestCannon,
    arc_front_eval, drawDie, horizontalShift, verticalShift, horizSymbol, vertSymbol,
    repeatChar]

/-! ## C2 counterexample: the ion save does not consult the capability flag -/

/-- C2 counterexample: a defender whose `canRotateIonShields` flag has been
revoked still gets an ion save die rolled and resolved (ranged attack on the
protected arc, ion die 4 ⇒ SAVED by ION), refuting the claim that the save
is attempted only while the capability flag is active. -/
theorem claim_C2_counterexample :
    knightNoIon.canRotateIonShields = false
    ∧ (resolveAttackMutating zeroBearing oneRng argsC2).outcome.ionLog =
        some { attempted := true, die := 4, needed := 4, success := true }
    ∧ (resolveAttackMutating zeroBearing oneRng argsC2).outcome.isSavedByIon = true := by
  refine ⟨by simp [knightNoIon, knightA], ?_, ?_⟩ <;>
    simp [resolveAttackMutating, scatterResolve, armourAndDamage, argsC2, knightNoIon, knightA, gridA, cellA1,
      weaponTestCannon, arc_front_eval, drawDie, horizontalShift, verticalShift,
      AttackOutcome.ionLog, AttackOutcome.isSavedByIon]

/-! ## C6: arc classification -/

lemma jsMod_nonneg_lt (a n : ℚ) (hn : 0 < n) (ha : 0 ≤ a) :
    0 ≤ jsMod a n ∧ jsMod a n < n := by
  have hq : (0 : ℚ) ≤ a / n := div_nonneg ha hn.le
  have heq : jsMod a n = n * Int.fract (a / n) := by
    unfold jsMod ratTrunc
    rw [if_pos hq, Int.fract]
    field_simp
  rw [heq]
  refine ⟨mul_nonneg hn.le (Int.fract_nonneg _), ?_⟩
  calc n * Int.fract (a / n) < n * 1 := by
        exact mul_lt_mul_of_pos_left (Int.fract_lt_one _) hn
    _ = n := mul_one n

lemma jsMod_neg_le (a n : ℚ) (hn : 0 < n) (ha : a < 0) :
    -n < jsMod a n ∧ jsMod a n ≤ 0 := by
  have hq : ¬ (0 : ℚ) ≤ a / n := not_le.mpr (div_neg_of_neg_of_pos ha hn)
  have hceil : (⌈a / n⌉ : ℤ) = -⌊-(a / n)⌋ := by
    rw [Int.floor_neg]
    ring
  have heq : jsMod a n = -(n * Int.fract (-(a / n))) := by
    unfold jsMod ratTrunc
    rw [if_neg hq, hceil, Int.fract]
    push_cast
    field_simp
    ring
  rw [heq]
  constructor
  · have hlt : n * Int.fract (-(a / n)) < n * 1 :=
      mul_lt_mul_of_pos_left (Int.fract_lt_one _) hn
    rw [mul_one] at hlt
    linarith
  · have hnn : 0 ≤ n * Int.fract (-(a / n)) := mul_nonneg hn.le (Int.fract_nonneg _)
    linarith

lemma normDeg_bounds (d : ℚ) : 0 ≤ normDeg d ∧ normDeg d < 360 := by
  unfold normDeg
  rcases le_or_lt 0 d with hd | hd
  · have h1 := jsMod_nonneg_lt d 360 (by norm_num) hd
    exact jsMod_nonneg_lt _ 360 (by norm_num) (by linarith [h1.1])
  · have h1 := jsMod_neg_le d 360 (by norm_num) hd
    exact jsMod_nonneg_lt _ 360 (by norm_num) (by linarith [h1.1])

lemma normalizeDeltaDeg_bounds (delta : ℚ) :
    -180 < normalizeDeltaDeg delta ∧ normalizeDeltaDeg delta ≤ 180 := by
  have h : 0 ≤ normDeg (delta + 180) ∧ normDeg (delta + 180) < 360 :=
    normDeg_bounds (delta + 180)
  unfold normDeg at h
  simp only [normalizeDeltaDeg]
  split_ifs with h0
  · norm_num
  · constructor
    · rcases lt_or_eq_of_le (by linarith [h.1] :
        (-180 : ℚ) ≤ jsMod (jsMod (delta + 180) 360 + 360) 360 - 180) with hlt | heq
      · exact hlt
      · exact absurd heq.symm h0
    · linarith [h.2]

/-- C6: for every bearing function, position, facing and target point,
`incomingArc` returns exactly one of the four arcs, determined by the signed
delta normalized into `(-180, 180]`: FRONT iff `|delta| ≤ 45` (boundary
inclusive), REAR iff `|delta| ≥ 135` (boundary inclusive), RIGHT iff
`45 < delta < 135`, LEFT iff `-135 < delta < -45`. -/
theorem claim_C6_arc_classification :
    ∀ (bearing : Vec2 → Vec2 → ℚ) (defenderPos : Vec2) (facing : ℚ) (attackerPos : Vec2),
      (-180 < normalizeDeltaDeg (bearing defenderPos attackerPos - normDeg facing)
        ∧ normalizeDeltaDeg (bearing defenderPos attackerPos - normDeg facing) ≤ 180)
      ∧ (incomingArc bearing defenderPos facing attackerPos = .FRONT ↔
          |normalizeDeltaDeg (bearing defenderPos attackerPos - normDeg facing)| ≤ 45)
      ∧ (incomingArc bearing defenderPos facing attackerPos = .REAR ↔
          135 ≤ |normalizeDeltaDeg (bearing defenderPos attackerPos - normDeg facing)|)
      ∧ (incomingArc bearing defenderPos facing attackerPos = .RIGHT ↔
          45 < normalizeDeltaDeg (bearing defenderPos attackerPos - normDeg facing)
          ∧ normalizeDeltaDeg (bearing defenderPos attackerPos - normDeg facing) < 135)
      ∧ (incomingArc bearing defenderPos facing attackerPos = .LEFT ↔
          -135 < normalizeDeltaDeg (bearing defenderPos attackerPos - normDeg facing)
          ∧ normalizeDeltaDeg (bearing defenderPos attackerPos - normDeg facing) < -45) := by
  intro bearing dp f ap
  set delta := normalizeDeltaDeg (bearing dp ap - normDeg f) with hdelta
  have harc : incomingArc bearing dp f ap =
      (if |delta| ≤ 45 then FacingArc.FRONT
       else if 135 ≤ |delta| then .REAR
       else if 0 < delta then .RIGHT
       else .LEFT) := rfl
  refine ⟨normalizeDeltaDeg_bounds _, ?_, ?_, ?_, ?_⟩ <;> rw [harc] <;>
    split_ifs with h1 h2 h3
  · simp [h1]
  · simp [h1]
  · simp [h1]
  · simp [h1]
  · simp only [reduceCtorEq, false_iff, not_le]
    calc |delta| ≤ 45 := h1
      _ < 135 := by norm_num
  · simp [h2]
  · simp [h2]
  · simp [h2]
  · simp only [reduceCtorEq, false_iff, not_and, not_lt]
    intro hgt
    linarith [le_abs_self delta, h1]
  · simp only [reduceCtorEq, false_iff, not_and, not_lt]
    intro hgt
    have habs : |delta| = delta := abs_of_pos (by linarith)
    rw [habs] at h2
    linarith
  · simp only [true_iff]
    have habs : |delta| = delta := abs_of_pos h3
    constructor <;> linarith [not_le.mp h1, not_le.mp h2, habs.symm.le, habs.le]
  · simp only [reduceCtorEq, false_iff, not_and, not_lt]
    intro hgt
    linarith [not_lt.mp h3]
  · simp only [reduceCtorEq, false_iff, not_and, not_lt]
    intro _
    linarith [(abs_le.mp h1).1]
  · simp only [reduceCtorEq, false_iff, not_and, not_lt]
    intro hgt
    rcases abs_cases delta with ⟨he, _⟩ | ⟨he, _⟩ <;> rw [he] at h2 <;> linarith
  · simp only [reduceCtorEq, false_iff, not_and, not_lt]
    intro _
    linarith
  · simp only [true_iff]
    have habs : |delta| = -delta := abs_of_nonpos (not_lt.mp h3)
    rw [habs] at h1 h2
    constructor <;> linarith [not_le.mp h1, not_le.mp h2]

/-! ## C7: hard cover wins in LOS computation -/

lemma terrainType_eq_hard_or_soft (tt : TerrainType) : tt = .HARD ∨ tt = .SOFT := by
  cases tt
  · exact Or.inl rfl
  · exact Or.inr rfl

lemma computeLosLoop_spec (a b : Vec2) :
    ∀ (ts : List TerrainPiece) (obs cr : Bool),
      ((computeLosLoop a b ts obs cr).blocked = true ↔
        ∃ t ∈ ts, t.type = .HARD ∧ segmentIntersectsRects a b t.rects = true)
      ∧ ((computeLosLoop a b ts obs cr).crossesAnyCover = true ↔
        (cr = true ∨ ∃ t ∈ ts, segmentIntersectsRects a b t.rects = true))
      ∧ ((computeLosLoop a b ts obs cr).blocked = true →
        (computeLosLoop a b ts obs cr).obscured = false) := by
  intro ts
  induction ts with
  | nil =>
    intro obs cr
    simp [computeLosLoop]
  | cons t ts ih =>
    intro obs cr
    simp only [computeLosLoop]
    by_cases hi : segmentIntersectsRects a b t.rects = true
    · rw [if_pos hi]
      rcases terrainType_eq_hard_or_soft t.type with ht | ht <;> rw [ht]
      · refine ⟨?_, ?_, fun _ => rfl⟩
        · simp only [true_iff]
          exact ⟨t, List.mem_cons_self t ts, ht, hi⟩
        · simp only [true_iff]
          exact Or.inr ⟨t, List.mem_cons_self t ts, hi⟩
      · have h := ih true true
        refine ⟨?_, ?_, h.2.2⟩
        · rw [h.1]
          rw [List.exists_mem_cons_iff]
          constructor
          · exact fun hex => Or.inr hex
          · rintro (⟨ht', _⟩ | hex)
            · rw [ht] at ht'
              exact absurd ht' (by simp)
            · exact hex
        · rw [h.2.1]
          simp only [true_or, true_iff]
          exact Or.inr ⟨t, List.mem_cons_self t ts, hi⟩
    · rw [if_neg hi]
      have h := ih obs cr
      refine ⟨?_, ?_, h.2.2⟩
      · rw [h.1, List.exists_mem_cons_iff]
        constructor
        · exact fun hex => Or.inr hex
        · rintro (⟨_, ht⟩ | hex)
          · exact absurd ht hi
          · exact hex
      · rw [h.2.1, List.exists_mem_cons_iff]
        constructor
        · rintro (hcr | hex)
          · exact Or.inl hcr
          · exact Or.inr (Or.inr hex)
        · rintro (hcr | ht | hex)
          · exact Or.inl hcr
          · exact absurd ht hi
          · exact Or.inr hex

/-- C7: if the segment crosses at least one fully blocking (HARD) piece then
`computeLosEffects` returns `blocked = true` and `obscured = false`, no
matter how many attenuating (SOFT) pieces it also crosses or in which order
the pieces are listed; and `crossesAnyCover` is true exactly when at least
one piece of either type is crossed. -/
theorem claim_C7_los_hard_cover :
    ∀ (a b : Vec2) (terrain : List TerrainPiece),
      ((∃ t ∈ terrain, t.type = .HARD ∧ segmentIntersectsRects a b t.rects = true) →
        (computeLosEffects a b terrain).blocked = true
        ∧ (computeLosEffects a b terrain).obscured = false)
      ∧ ((computeLosEffects a b terrain).crossesAnyCover = true ↔
        ∃ t ∈ terrain, segmentIntersectsRects a b t.rects = true) := by
  intro a b terrain
  have h := computeLosLoop_spec a b terrain false false
  refine ⟨fun hex => ?_, ?_⟩
  · have hb : (computeLosEffects a b terrain).blocked = true := h.1.mpr hex
    exact ⟨hb, h.2.2 hb⟩
  · rw [show computeLosEffects a b terrain = computeLosLoop a b terrain false false from rfl,
      h.2.1]
    simp

set_option maxHeartbeats 1000000 in
lemma segmentEnterT_hard_eval :
    segmentEnterT ⟨0, 0⟩ ⟨10, 0⟩ { x := 4, y := -1, w := 2, h := 2 } = some (2 / 5) := by
  unfold segmentEnterT lbClip
  norm_num

/-- C7 witness: a segment crossing a soft piece first and a hard piece second
yields `blocked = true`, `obscured = false`. -/
theorem claim_C7_los_hard_cover_witness :
    (computeLosEffects ⟨0, 0⟩ ⟨10, 0⟩ [softPiece, hardPiece]).blocked = true
    ∧ (computeLosEffects ⟨0, 0⟩ ⟨10, 0⟩ [softPiece, hardPiece]).obscured = false :=
  (claim_C7_los_hard_cover ⟨0, 0⟩ ⟨10, 0⟩ [softPiece, hardPiece]).1
    ⟨hardPiece, by simp, rfl, by
      simp [segmentIntersectsRects, hardPiece, segmentEnterT_hard_eval]⟩

/-! ## C4: damage model invariants -/

lemma updateFirst_forall₂ {α : Type} (R : α → α → Prop) (p : α → Bool) (f : α → α)
    (hrefl : ∀ x, R x x) (hf : ∀ x, p x = true → R x (f x)) :
    ∀ l : List α, List.Forall₂ R l (updateFirst p f l) := by
  intro l
  induction l with
  | nil => exact .nil
  | cons a l ih =>
    by_cases hp : p a = true
    · simp only [updateFirst, if_pos hp]
      exact .cons (hf a hp) (List.forall₂_same.mpr fun x _ => hrefl x)
    · simp only [updateFirst, if_neg hp]
      exact .cons (hrefl a) ih

lemma forall₂_trans_of {α : Type} (R : α → α → Prop)
    (htrans : ∀ a b c, R a b → R b c → R a c) :
    ∀ {l m n : List α}, List.Forall₂ R l m → List.Forall₂ R m n → List.Forall₂ R l n := by
  intro l m n h1 h2
  induction h1 generalizing n with
  | nil =>
    cases h2
    exact .nil
  | cons hab h ih =>
    cases h2 with
    | cons hbc h' => exact .cons (htrans _ _ _ hab hbc) (ih h')

lemma mem_updateFirst_find {α : Type} (p : α → Bool) (f : α → α) :
    ∀ (l : List α) (c' : α), c' ∈ updateFirst p f l →
      c' ∈ l ∨ ∃ c, l.find? p = some c ∧ c' = f c := by
  intro l
  induction l with
  | nil =>
    intro c' h
    simp [updateFirst] at h
  | cons a l ih =>
    intro c' h
    by_cases hp : p a = true
    · simp only [updateFirst, if_pos hp] at h
      rcases List.mem_cons.mp h with he | hm
      · exact Or.inr ⟨a, by rw [List.find?_cons_of_pos _ hp], he⟩
      · exact Or.inl (List.mem_cons_of_mem a hm)
    · simp only [updateFirst, if_neg hp] at h
      rcases List.mem_cons.mp h with he | hm
      · exact Or.inl (he ▸ List.mem_cons_self a l)
      · rcases ih c' hm with h1 | ⟨c, hfc, he⟩
        · exact Or.inl (List.mem_cons_of_mem a h1)
        · refine Or.inr ⟨c, ?_, he⟩
          rw [List.find?_cons_of_neg _ hp]
          exact hfc

lemma find?_updateFirst {α : Type} (p : α → Bool) (f : α → α)
    (hpf : ∀ x, p x = true → p (f x) = true) :
    ∀ (l : List α) (c : α), l.find? p = some c →
      (updateFirst p f l).find? p = some (f c) := by
  intro l
  induction l with
  | nil =>
    intro c h
    simp at h
  | cons a l ih =>
    intro c h
    by_cases hp : p a = true
    · rw [List.find?_cons_of_pos _ hp] at h
      injection h with h
      subst h
      simp only [updateFirst, if_pos hp]
      rw [List.find?_cons_of_pos _ (hpf a hp)]
    · rw [List.find?_cons_of_neg _ hp] at h
      simp only [updateFirst, if_neg hp]
      rw [List.find?_cons_of_neg _ hp]
      exact ih c h

lemma applyCoreCriticalEffect_grid (k : KnightState) (g : ℕ) :
    (applyCoreCriticalEffect k g).grid = k.grid := by
  unfold applyCoreCriticalEffect
  split <;> rfl

lemma updateArmDisablesIfNeeded_grid (k : KnightState) :
    (updateArmDisablesIfNeeded k).grid = k.grid := rfl

lemma markCell_eq_of_none (k : KnightState) (cid : String)
    (h : k.grid.cells.find? (fun c => decide (c.id = cid)) = none) :
    markCellCriticallyDamaged k cid = k := by
  unfold markCellCriticallyDamaged
  rw [h]

lemma markCell_eq_of_crit (k : KnightState) (cid : String) (c : GridCell)
    (h : k.grid.cells.find? (fun c' => decide (c'.id = cid)) = some c)
    (hc : c.criticallyDamaged = true) :
    markCellCriticallyDamaged k cid = k := by
  unfold markCellCriticallyDamaged
  rw [h]
  simp [hc]

lemma markCell_cells_of_notcrit (k : KnightState) (cid : String) (c : GridCell)
    (h : k.grid.cells.find? (fun c' => decide (c'.id = cid)) = some c)
    (hc : c.criticallyDamaged = false) :
    (markCellCriticallyDamaged k cid).grid.cells =
      updateFirst (fun c' => decide (c'.id = cid))
        (fun c' => { c' with criticallyDamaged := true }) k.grid.cells := by
  unfold markCellCriticallyDamaged
  rw [h]
  simp only [hc, Bool.false_eq_true, if_false]
  split_ifs with hg
  · rw [updateArmDisablesIfNeeded_grid, applyCoreCriticalEffect_grid]
  · rw [applyCoreCriticalEffect_grid]

lemma applyDamage_eq_of_none (k : KnightState) (cid : String) (dmg : ℤ)
    (h : k.grid.cells.find? (fun c => decide (c.id = cid)) = none) :
    applyDamageToCell k cid dmg = k := by
  unfold applyDamageToCell
  rw [h]

lemma applyDamage_eq_of_crit (k : KnightState) (cid : String) (dmg : ℤ) (c : GridCell)
    (h : k.grid.cells.find? (fun c' => decide (c'.id = cid)) = some c)
    (hc : c.criticallyDamaged = true) :
    applyDamageToCell k cid dmg = k := by
  unfold applyDamageToCell
  rw [h]
  simp [hc]

lemma applyDamage_of_notcrit (k : KnightState) (cid : String) (dmg : ℤ) (c : GridCell)
    (h : k.grid.cells.find? (fun c' => decide (c'.id = cid)) = some c)
    (hc : c.criticallyDamaged = false) :
    applyDamageToCell k cid dmg =
      (if max 0 (c.armorPoints - dmg) = 0
       then
         markCellCriticallyDamaged
           { k with
               grid :=
                 { k.grid with
                     cells :=
                       updateFirst (fun c' => decide (c'.id = cid))
                         (fun c' => { c' with armorPoints := max 0 (c.armorPoints - dmg) })
                         k.grid.cells } }
           cid
       else
         { k with
             grid :=
               { k.grid with
                   cells :=
                     updateFirst (fun c' => decide (c'.id = cid))
                       (fun c' => { c' with armorPoints := max 0 (c.armorPoints - dmg) })
                       k.grid.cells } }) := by
  unfold applyDamageToCell
  rw [h]
  simp only [hc, Bool.false_eq_true, if_false]

lemma sticky_updateFirst (p : GridCell → Bool) (f : GridCell → GridCell)
    (hf : ∀ x, x.criticallyDamaged = true → (f x).criticallyDamaged = true)
    (l : List GridCell) :
    List.Forall₂ (fun a b => a.criticallyDamaged = true → b.criticallyDamaged = true)
      l (updateFirst p f l) :=
  updateFirst_forall₂ _ p f (fun _ => id) (fun x _ => hf x) l

lemma sticky_refl (l : List GridCell) :
    List.Forall₂ (fun a b => a.criticallyDamaged = true → b.criticallyDamaged = true) l l :=
  List.forall₂_same.mpr fun _ _ => id

lemma sticky_trans :
    ∀ {l m n : List GridCell},
      List.Forall₂ (fun a b => a.criticallyDamaged = true → b.criticallyDamaged = true) l m →
      List.Forall₂ (fun a b => a.criticallyDamaged = true → b.criticallyDamaged = true) m n →
      List.Forall₂ (fun a b => a.criticallyDamaged = true → b.criticallyDamaged = true) l n :=
  forall₂_trans_of _ (fun _ _ _ hab hbc => fun h => hbc (hab h))

lemma markCell_sticky (k : KnightState) (cid : String) :
    List.Forall₂ (fun a b => b.armorPoints = a.armorPoints
        ∧ b.maxArmorPoints = a.maxArmorPoints
        ∧ (a.criticallyDamaged = true → b.criticallyDamaged = true))
      k.grid.cells (markCellCriticallyDamaged k cid).grid.cells := by
  have hrefl : ∀ x : GridCell, x.armorPoints = x.armorPoints ∧
      x.maxArmorPoints = x.maxArmorPoints ∧
      (x.criticallyDamaged = true → x.criticallyDamaged = true) :=
    fun x => ⟨rfl, rfl, id⟩
  rcases hfind : k.grid.cells.find? (fun c' => decide (c'.id = cid)) with _ | c
  · rw [markCell_eq_of_none k cid hfind]
    exact List.forall₂_same.mpr fun x _ => hrefl x
  · cases hcrit : c.criticallyDamaged
    · rw [markCell_cells_of_notcrit k cid c hfind hcrit]
      exact updateFirst_forall₂ _ _ _ hrefl (fun x _ => ⟨rfl, rfl, fun _ => rfl⟩) _
    · rw [markCell_eq_of_crit k cid c hfind hcrit]
      exact List.forall₂_same.mpr fun x _ => hrefl x

/-- C4: the damage-model operations preserve per-cell armour bounds
`[0, maxArmorPoints]` (for the non-negative damage the engine passes), never
revert the critically-damaged flag, leave an already-critical cell and the
whole knight unchanged, and when armour reaches exactly 0 mark the cell
critically damaged via a single `markCellCriticallyDamaged` call (which
triggers the group effect exactly once; re-application is a no-op). -/
theorem claim_C4_damage_invariants :
    ∀ (k : KnightState) (cid : String) (dmg : ℤ), 0 ≤ dmg →
      ((∀ c ∈ k.grid.cells, 0 ≤ c.armorPoints ∧ c.armorPoints ≤ c.maxArmorPoints) →
        ∀ c ∈ (applyDamageToCell k cid dmg).grid.cells,
          0 ≤ c.armorPoints ∧ c.armorPoints ≤ c.maxArmorPoints)
      ∧ List.Forall₂ (fun a b => a.criticallyDamaged = true → b.criticallyDamaged = true)
          k.grid.cells (applyDamageToCell k cid dmg).grid.cells
      ∧ List.Forall₂ (fun a b => b.armorPoints = a.armorPoints
            ∧ b.maxArmorPoints = a.maxArmorPoints
            ∧ (a.criticallyDamaged = true → b.criticallyDamaged = true))
          k.grid.cells (markCellCriticallyDamaged k cid).grid.cells
      ∧ (∀ c, k.grid.cells.find? (fun c' => decide (c'.id = cid)) = some c →
          (c.criticallyDamaged = true → applyDamageToCell k cid dmg = k)
          ∧ (c.criticallyDamaged = false → max 0 (c.armorPoints - dmg) = 0 →
              (applyDamageToCell k cid dmg).grid.cells.find?
                  (fun c' => decide (c'.id = cid)) =
                some { c with armorPoints := 0, criticallyDamaged := true })) := by
  intro k cid dmg hdmg
  rcases hfind : k.grid.cells.find? (fun c' => decide (c'.id = cid)) with _ | c
  · rw [applyDamage_eq_of_none k cid dmg hfind]
    refine ⟨fun hb => hb, sticky_refl _, markCell_sticky k cid, ?_⟩
    intro c hc
    rw [hfind] at hc
    cases hc
  · cases hcrit : c.criticallyDamaged
    · -- cell found and not yet critical
      have hkey := applyDamage_of_notcrit k cid dmg c hfind hcrit
      have hpf : ∀ x : GridCell, decide (x.id = cid) = true →
          decide (({ x with armorPoints := max 0 (c.armorPoints - dmg) } : GridCell).id
            = cid) = true := fun x hx => hx
      have hfind1 := find?_updateFirst (fun c' => decide (c'.id = cid))
        (fun c' => { c' with armorPoints := max 0 (c.armorPoints - dmg) }) hpf
        k.grid.cells c hfind
      by_cases hz : max 0 (c.armorPoints - dmg) = 0
      · rw [if_pos hz] at hkey
        have hcellsK1 : (markCellCriticallyDamaged
            { k with
                grid :=
                  { k.grid with
                      cells :=
                        updateFirst (fun c' => decide (c'.id = cid))
                          (fun c' => { c' with armorPoints := max 0 (c.armorPoints - dmg) })
                          k.grid.cells } } cid).grid.cells =
            updateFirst (fun c' => decide (c'.id = cid))
              (fun c' => { c' with criticallyDamaged := true })
              (updateFirst (fun c' => decide (c'.id = cid))
                (fun c' => { c' with armorPoints := max 0 (c.armorPoints - dmg) })
                k.grid.cells) :=
          markCell_cells_of_notcrit _ cid _ hfind1 hcrit
        refine ⟨?_, ?_, markCell_sticky k cid, ?_⟩
        · intro hb c' hc'
          rw [hkey] at hc'
          rw [hcellsK1] at hc'
          rcases mem_updateFirst_find _ _ _ c' hc' with hm | ⟨c1, hfc1, rfl⟩
          · rcases mem_updateFirst_find _ _ _ c' hm with hm2 | ⟨c2, hfc2, rfl⟩
            · exact hb c' hm2
            · rw [hfind] at hfc2
              injection hfc2 with hfc2
              subst hfc2
              have hbc := hb c (List.mem_of_find?_eq_some hfind)
              constructor
              · exact le_max_left 0 _
              · simp only
                omega
          · rw [hfind1] at hfc1
            injection hfc1 with hfc1
            subst hfc1
            have hbc := hb c (List.mem_of_find?_eq_some hfind)
            constructor
            · exact le_max_left 0 _
            · simp only
              omega
        · rw [hkey, hcellsK1]
          exact sticky_trans
            (sticky_updateFirst (fun c' => decide (c'.id = cid))
              (fun c' => { c' with armorPoints := max 0 (c.armorPoints - dmg) })
              (fun x h => h) k.grid.cells)
            (sticky_updateFirst (fun c' => decide (c'.id = cid))
              (fun c' => { c' with criticallyDamaged := true })
              (fun x _ => rfl) _)
        · intro c0 hc0
          rw [hfind] at hc0
          injection hc0 with hc0
          subst hc0
          refine ⟨fun habs => ?_, fun _ hz' => ?_⟩
          · rw [habs] at hcrit
            cases hcrit
          · rw [hkey, hcellsK1]
            have hfind2 := find?_updateFirst (fun c' => decide (c'.id = cid))
              (fun c' => { c' with criticallyDamaged := true })
              (fun x hx => hx)
              (updateFirst (fun c' => decide (c'.id = cid))
                (fun c' => { c' with armorPoints := max 0 (c.armorPoints - dmg) })
                k.grid.cells)
              { c with armorPoints := max 0 (c.armorPoints - dmg) } hfind1
            rw [hfind2, hz]
      · refine ⟨?_, ?_, markCell_sticky k cid, ?_⟩
        · intro hb c' hc'
          rw [hkey, if_neg hz] at hc'
          rcases mem_updateFirst_find _ _ _ c' hc' with hm | ⟨c1, hfc1, rfl⟩
          · exact hb c' hm
          · rw [hfind] at hfc1
            injection hfc1 with hfc1
            subst hfc1
            have hbc := hb c (List.mem_of_find?_eq_some hfind)
            constructor
            · exact le_max_left 0 _
            · simp only
              omega
        · rw [hkey, if_neg hz]
          exact sticky_updateFirst (fun c' => decide (c'.id = cid))
            (fun c' => { c' with armorPoints := max 0 (c.armorPoints - dmg) })
            (fun x h => h) k.grid.cells
        · intro c0 hc0
          rw [hfind] at hc0
          injection hc0 with hc0
          subst hc0
          refine ⟨fun habs => ?_, fun _ hz' => absurd hz' hz⟩
          rw [habs] at hcrit
          cases hcrit
    · -- cell found and already critical: everything is a no-op
      rw [applyDamage_eq_of_crit k cid dmg c hfind hcrit]
      refine ⟨fun hb => hb, sticky_refl _, markCell_sticky k cid, ?_⟩
      intro c0 hc0
      rw [hfind] at hc0
      injection hc0 with hc0
      subst hc0
      refine ⟨fun _ => rfl, fun habs _ => ?_⟩
      rw [habs] at hcrit
      cases hcrit

/-- C4 witness: applying damage to an already critically damaged cell leaves
the knight state completely unchanged. -/
theorem claim_C4_damage_invariants_witness :
    applyDamageToCell knightACrit "A1" 1 = knightACrit :=
  ((claim_C4_damage_invariants knightACrit "A1" 1 (by norm_num)).2.2.2
    cellA1crit (by rfl)).1 rfl

/-! ## C9: arm-disable cascade -/

lemma filter_updateFirst_pos {α : Type} (p q : α → Bool) (f : α → α)
    (hpf : ∀ x, p (f x) = p x) :
    ∀ l : List α, (∀ c ∈ l, q c = true → p c = true) →
      (updateFirst q f l).filter p = updateFirst q f (l.filter p) := by
  intro l
  induction l with
  | nil => intro _; rfl
  | cons a l ih =>
    intro hq
    by_cases hqa : q a = true
    · have hpa : p a = true := hq a (List.mem_cons_self a l) hqa
      simp only [updateFirst, if_pos hqa, List.filter_cons, hpf a, hpa, if_pos]
    · simp only [updateFirst, if_neg hqa, List.filter_cons]
      by_cases hpa : p a = true
      · simp only [hpa, if_pos]
        rw [ih (fun c hc => hq c (List.mem_cons_of_mem a hc))]
        simp only [updateFirst, if_neg hqa]
      · simp only [hpa]
        simp only [Bool.false_eq_true, if_false]
        exact ih (fun c hc => hq c (List.mem_cons_of_mem a hc))

lemma filter_updateFirst_neg {α : Type} (p q : α → Bool) (f : α → α) :
    ∀ l : List α, (∀ c ∈ l, q c = true → (p c = false ∧ p (f c) = false)) →
      (updateFirst q f l).filter p = l.filter p := by
  intro l
  induction l with
  | nil => intro _; rfl
  | cons a l ih =>
    intro hq
    by_cases hqa : q a = true
    · have hpa := hq a (List.mem_cons_self a l) hqa
      simp only [updateFirst, if_pos hqa, List.filter_cons, hpa.1, hpa.2]
      simp only [Bool.false_eq_true, if_false]
    · simp only [updateFirst, if_neg hqa, List.filter_cons]
      rw [ih (fun c hc => hq c (List.mem_cons_of_mem a hc))]

lemma mem_updateFirst_of_neg {α : Type} (q : α → Bool) (f : α → α) :
    ∀ (l : List α) (c : α), c ∈ l → q c = false → c ∈ updateFirst q f l := by
  intro l
  induction l with
  | nil =>
    intro c hc
    cases hc
  | cons a l ih =>
    intro c hc hqc
    by_cases hqa : q a = true
    · simp only [updateFirst, if_pos hqa]
      rcases List.mem_cons.mp hc with rfl | hm
      · rw [hqc] at hqa
        cases hqa
      · exact List.mem_cons_of_mem _ hm
    · simp only [updateFirst, if_neg hqa]
      rcases List.mem_cons.mp hc with rfl | hm
      · exact List.mem_cons_self _ _
      · exact List.mem_cons_of_mem _ (ih c hm hqc)

lemma map_updateFirst {α β : Type} (g : α → β) (q : α → Bool) (f : α → α)
    (hf : ∀ x, g (f x) = g x) :
    ∀ l : List α, (updateFirst q f l).map g = l.map g := by
  intro l
  induction l with
  | nil => rfl
  | cons a l ih =>
    by_cases hqa : q a = true
    · simp only [updateFirst, if_pos hqa, List.map_cons, hf a]
    · simp only [updateFirst, if_neg hqa, List.map_cons, ih]

lemma eq_of_mem_id_nodup :
    ∀ l : List GridCell, (l.map (·.id)).Nodup →
      ∀ a b : GridCell, a ∈ l → b ∈ l → a.id = b.id → a = b := by
  intro l
  induction l with
  | nil =>
    intro _ a b ha
    cases ha
  | cons x l ih =>
    intro hnd a b ha hb hid
    rw [List.map_cons, List.nodup_cons] at hnd
    rcases List.mem_cons.mp ha with rfl | hma
    · rcases List.mem_cons.mp hb with rfl | hmb
      · rfl
      · exact absurd (hid ▸ List.mem_map_of_mem (·.id) hmb) hnd.1
    · rcases List.mem_cons.mp hb with rfl | hmb
      · exact absurd (hid ▸ List.mem_map_of_mem (·.id) hma) hnd.1
      · exact ih hnd.2 a b hma hmb hid

lemma find?_eq_of_mem_nodup :
    ∀ l : List GridCell, (l.map (·.id)).Nodup →
      ∀ c ∈ l, l.find? (fun x => decide (x.id = c.id)) = some c := by
  intro l
  induction l with
  | nil =>
    intro _ c hc
    cases hc
  | cons a l ih =>
    intro hnd c hc
    rw [List.map_cons, List.nodup_cons] at hnd
    rcases List.mem_cons.mp hc with rfl | hm
    · rw [List.find?_cons_of_pos _ (by simp)]
    · have hne : a.id ≠ c.id := by
        intro he
        exact hnd.1 (he ▸ List.mem_map_of_mem (·.id) hm)
      rw [List.find?_cons_of_neg _ (by simp [hne])]
      exact ih hnd.2 c hm

lemma markCell_group3 (k : KnightState) (cid : String) (c : GridCell)
    (hfind : k.grid.cells.find? (fun c' => decide (c'.id = cid)) = some c)
    (hcrit : c.criticallyDamaged = false) (hg : c.group = 3) :
    markCellCriticallyDamaged k cid =
      updateArmDisablesIfNeeded
        { k with
            grid :=
              { k.grid with
                  cells :=
                    updateFirst (fun c' => decide (c'.id = cid))
                      (fun c' => { c' with criticallyDamaged := true })
                      k.grid.cells } } := by
  unfold markCellCriticallyDamaged
  rw [hfind]
  simp only [hcrit, Bool.false_eq_true, if_false, hg, if_pos]
  rfl

lemma updateArm_left_enabled (k : KnightState)
    (hlb : (decide (2 ≤ (((k.grid.cells.filter fun c => decide (c.group = 3)).filter fun c =>
          decide ((c.x : ℚ) < (((k.grid.width : ℚ)) - 1) / 2)).length)) &&
        (((k.grid.cells.filter fun c => decide (c.group = 3)).filter fun c =>
          decide ((c.x : ℚ) < (((k.grid.width : ℚ)) - 1) / 2)).all
          (·.criticallyDamaged))) = false)
    (hen : ∀ w ∈ k.weapons, w.mount = .ARM_LEFT → w.disabled = false) :
    ∀ w ∈ (updateArmDisablesIfNeeded k).weapons, w.mount = .ARM_LEFT → w.disabled = false := by
  intro w hw hm
  simp only [updateArmDisablesIfNeeded] at hw
  rw [hlb] at hw
  simp only [Bool.false_eq_true, if_false] at hw
  split at hw
  · rcases List.mem_map.mp hw with ⟨w0, hw0, rfl⟩
    by_cases hr : w0.mount = WeaponMount.ARM_RIGHT
    · rw [if_pos hr] at hm ⊢
      cases hr ▸ hm
    · rw [if_neg hr] at hm ⊢
      exact hen w0 hw0 hm
  · exact hen w hw hm

lemma updateArm_left_disabled (k : KnightState)
    (hlb : (decide (2 ≤ (((k.grid.cells.filter fun c => decide (c.group = 3)).filter fun c =>
          decide ((c.x : ℚ) < (((k.grid.width : ℚ)) - 1) / 2)).length)) &&
        (((k.grid.cells.filter fun c => decide (c.group = 3)).filter fun c =>
          decide ((c.x : ℚ) < (((k.grid.width : ℚ)) - 1) / 2)).all
          (·.criticallyDamaged))) = true) :
    ∀ w ∈ (updateArmDisablesIfNeeded k).weapons, w.mount = .ARM_LEFT → w.disabled = true := by
  intro w hw hm
  simp only [updateArmDisablesIfNeeded] at hw
  rw [hlb] at hw
  simp only [if_true] at hw
  split at hw
  · rcases List.mem_map.mp hw with ⟨w1, hw1, rfl⟩
    by_cases hr : w1.mount = WeaponMount.ARM_RIGHT
    · rw [if_pos hr] at hm ⊢
    · rw [if_neg hr] at hm ⊢
      rcases List.mem_map.mp hw1 with ⟨w0, _, rfl⟩
      by_cases hl : w0.mount = WeaponMount.ARM_LEFT
      · rw [if_pos hl]
      · rw [if_neg hl] at hm ⊢
        exact absurd hm hl
  · rcases List.mem_map.mp hw with ⟨w0, _, rfl⟩
    by_cases hl : w0.mount = WeaponMount.ARM_LEFT
    · rw [if_pos hl]
    · rw [if_neg hl] at hm ⊢
      exact absurd hm hl

lemma updateArm_right_enabled (k : KnightState)
    (hrb : (decide (2 ≤ (((k.grid.cells.filter fun c => decide (c.group = 3)).filter fun c =>
          decide ((((k.grid.width : ℚ)) - 1) / 2 < (c.x : ℚ))).length)) &&
        (((k.grid.cells.filter fun c => decide (c.group = 3)).filter fun c =>
          decide ((((k.grid.width : ℚ)) - 1) / 2 < (c.x : ℚ))).all
          (·.criticallyDamaged))) = false)
    (hen : ∀ w ∈ k.weapons, w.mount = .ARM_RIGHT → w.disabled = false) :
    ∀ w ∈ (updateArmDisablesIfNeeded k).weapons, w.mount = .ARM_RIGHT → w.disabled = false := by
  intro w hw hm
  simp only [updateArmDisablesIfNeeded] at hw
  rw [hrb] at hw
  simp only [Bool.false_eq_true, if_false] at hw
  split at hw
  · rcases List.mem_map.mp hw with ⟨w0, hw0, rfl⟩
    by_cases hl : w0.mount = WeaponMount.ARM_LEFT
    · rw [if_pos hl] at hm ⊢
      cases hl ▸ hm
    · rw [if_neg hl] at hm ⊢
      exact hen w0 hw0 hm
  · exact hen w hw hm

lemma updateArm_right_disabled (k : KnightState)
    (hrb : (decide (2 ≤ (((k.grid.cells.filter fun c => decide (c.group = 3)).filter fun c =>
          decide ((((k.grid.width : ℚ)) - 1) / 2 < (c.x : ℚ))).length)) &&
        (((k.grid.cells.filter fun c => decide (c.group = 3)).filter fun c =>
          decide ((((k.grid.width : ℚ)) - 1) / 2 < (c.x : ℚ))).all
          (·.criticallyDamaged))) = true) :
    ∀ w ∈ (updateArmDisablesIfNeeded k).weapons, w.mount = .ARM_RIGHT → w.disabled = true := by
  intro w hw hm
  simp only [updateArmDisablesIfNeeded] at hw
  rw [hrb] at hw
  simp only [if_true] at hw
  rcases List.mem_map.mp hw with ⟨w1, _, rfl⟩
  by_cases hr : w1.mount = WeaponMount.ARM_RIGHT
  · rw [if_pos hr]
  · rw [if_neg hr] at hm ⊢
    exact absurd hm hr

lemma filter2_updateFirst (f : GridCell → GridCell) (p3 pS : GridCell → Bool)
    (hf3 : ∀ x, p3 (f x) = p3 x) (hfS : ∀ x, pS (f x) = pS x) (cid : String)
    (l : List GridCell) (c : GridCell)
    (huniq : ∀ x ∈ l, decide (x.id = cid) = true → x = c)
    (h3 : p3 c = true) (hS : pS c = true) :
    ((updateFirst (fun x => decide (x.id = cid)) f l).filter p3).filter pS =
      updateFirst (fun x => decide (x.id = cid)) f ((l.filter p3).filter pS) := by
  rw [filter_updateFirst_pos p3 _ f hf3 l (fun x hx hq => (huniq x hx hq) ▸ h3)]
  rw [filter_updateFirst_pos pS _ f hfS (l.filter p3)
    (fun x hx hq => (huniq x (List.mem_filter.mp hx).1 hq) ▸ hS)]

lemma uniq_of_nodup (l : List GridCell) (hnd : (l.map (·.id)).Nodup) (c : GridCell)
    (hc : c ∈ l) : ∀ x ∈ l, decide (x.id = c.id) = true → x = c :=
  fun x hx hq => eq_of_mem_id_nodup l hnd x c hx hc (of_decide_eq_true hq)

lemma arm_cascade_left (k : KnightState) (c1 c2 : GridCell)
    (hnd : (k.grid.cells.map (·.id)).Nodup)
    (hfilter : ((k.grid.cells.filter fun c => decide (c.group = 3)).filter fun c =>
        decide ((c.x : ℚ) < ((k.grid.width : ℚ) - 1) / 2)) = [c1, c2])
    (hcrit1 : c1.criticallyDamaged = false)
    (hcrit2 : c2.criticallyDamaged = false)
    (hen : ∀ w ∈ k.weapons, w.mount = WeaponMount.ARM_LEFT → w.disabled = false) :
    (∀ w ∈ (markCellCriticallyDamaged k c1.id).weapons,
        w.mount = WeaponMount.ARM_LEFT → w.disabled = false)
    ∧ (∀ w ∈ (markCellCriticallyDamaged (markCellCriticallyDamaged k c1.id) c2.id).weapons,
        w.mount = WeaponMount.ARM_LEFT → w.disabled = true) := by
  set p3 : GridCell → Bool := fun c => decide (c.group = 3) with hp3def
  set pL : GridCell → Bool := fun c => decide ((c.x : ℚ) < ((k.grid.width : ℚ) - 1) / 2)
    with hpLdef
  set fc : GridCell → GridCell := fun c' => { c' with criticallyDamaged := true } with hfcdef
  have hc1L : c1 ∈ (k.grid.cells.filter p3).filter pL := by
    rw [hfilter]
    exact List.mem_cons_self _ _
  have hc2L : c2 ∈ (k.grid.cells.filter p3).filter pL := by
    rw [hfilter]
    exact List.mem_cons_of_mem _ (List.mem_cons_self _ _)
  obtain ⟨hc1f3, hpl1⟩ := List.mem_filter.mp hc1L
  obtain ⟨hc1cells, h31⟩ := List.mem_filter.mp hc1f3
  obtain ⟨hc2f3, hpl2⟩ := List.mem_filter.mp hc2L
  obtain ⟨hc2cells, h32⟩ := List.mem_filter.mp hc2f3
  have hg1 : c1.group = 3 := of_decide_eq_true h31
  have hg2 : c2.group = 3 := of_decide_eq_true h32
  have hsub : List.Sublist ((k.grid.cells.filter p3).filter pL) k.grid.cells :=
    (List.filter_sublist _).trans (List.filter_sublist _)
  have hndL := hnd.sublist (hsub.map (·.id))
  rw [hfilter] at hndL
  have hidne : c1.id ≠ c2.id := by
    simp only [List.map_cons, List.map_nil, List.nodup_cons, List.mem_cons,
      List.mem_singleton, List.not_mem_nil, or_false] at hndL
    exact hndL.1
  have huniq1 := uniq_of_nodup k.grid.cells hnd c1 hc1cells
  have hfind1 : k.grid.cells.find? (fun x => decide (x.id = c1.id)) = some c1 :=
    find?_eq_of_mem_nodup k.grid.cells hnd c1 hc1cells
  have hmark1 := markCell_group3 k c1.id c1 hfind1 hcrit1 hg1
  have hfc3 : ∀ x, p3 (fc x) = p3 x := fun x => rfl
  have hfcL : ∀ x, pL (fc x) = pL x := fun x => rfl
  have hLA : ((updateFirst (fun x => decide (x.id = c1.id)) fc k.grid.cells).filter
        p3).filter pL = [fc c1, c2] := by
    rw [filter2_updateFirst fc p3 pL hfc3 hfcL c1.id k.grid.cells c1 huniq1 h31 hpl1]
    rw [hfilter]
    simp [updateFirst]
  have hnd1 : ((updateFirst (fun x => decide (x.id = c1.id)) fc k.grid.cells).map
      (·.id)).Nodup := by
    rw [map_updateFirst (fun c : GridCell => c.id) (fun x => decide (x.id = c1.id)) fc
      (fun x => rfl)]
    exact hnd
  have hc2mem1 : c2 ∈ updateFirst (fun x => decide (x.id = c1.id)) fc k.grid.cells :=
    mem_updateFirst_of_neg _ _ _ c2 hc2cells (decide_eq_false (Ne.symm hidne))
  have hfccrit : (fc c1).criticallyDamaged = true := rfl
  have hlbA : (decide (2 ≤ (((updateFirst (fun x => decide (x.id = c1.id)) fc
        k.grid.cells).filter p3).filter pL).length) &&
      (((updateFirst (fun x => decide (x.id = c1.id)) fc
        k.grid.cells).filter p3).filter pL).all (·.criticallyDamaged)) = false := by
    rw [hLA]
    simp [hcrit2]
  have hLB : ((updateFirst (fun x => decide (x.id = c2.id)) fc
        (updateFirst (fun x => decide (x.id = c1.id)) fc k.grid.cells)).filter
        p3).filter pL = [fc c1, fc c2] := by
    rw [filter2_updateFirst fc p3 pL hfc3 hfcL c2.id
      (updateFirst (fun x => decide (x.id = c1.id)) fc k.grid.cells) c2
      (uniq_of_nodup _ hnd1 c2 hc2mem1) h32 hpl2]
    rw [hLA]
    simp [updateFirst, decide_eq_false hidne]
  have hlbB : (decide (2 ≤ (((updateFirst (fun x => decide (x.id = c2.id)) fc
        (updateFirst (fun x => decide (x.id = c1.id)) fc k.grid.cells)).filter
        p3).filter pL).length) &&
      (((updateFirst (fun x => decide (x.id = c2.id)) fc
        (updateFirst (fun x => decide (x.id = c1.id)) fc k.grid.cells)).filter
        p3).filter pL).all (·.criticallyDamaged)) = true := by
    rw [hLB]
    simp
  refine ⟨?_, ?_⟩
  · intro w hw hm
    rw [hmark1] at hw
    exact updateArm_left_enabled
      { k with
          grid :=
            { k.grid with
                cells := updateFirst (fun c' => decide (c'.id = c1.id)) fc k.grid.cells } }
      hlbA (fun w' hw' hm' => hen w' hw' hm') w hw hm
  · intro w hw hm
    rw [hmark1] at hw
    have hfind2 : (updateArmDisablesIfNeeded
        { k with
            grid :=
              { k.grid with
                  cells :=
                    updateFirst (fun c' => decide (c'.id = c1.id)) fc
                      k.grid.cells } }).grid.cells.find?
        (fun x => decide (x.id = c2.id)) = some c2 :=
      find?_eq_of_mem_nodup _ hnd1 c2 hc2mem1
    have hmark2 := markCell_group3
      (updateArmDisablesIfNeeded
        { k with
            grid :=
              { k.grid with
                  cells :=
                    updateFirst (fun c' => decide (c'.id = c1.id)) fc k.grid.cells } })
      c2.id c2 hfind2 hcrit2 hg2
    rw [hmark2] at hw
    exact updateArm_left_disabled
      { updateArmDisablesIfNeeded
          { k with
              grid :=
                { k.grid with
                    cells := updateFirst (fun c' => decide (c'.id = c1.id)) fc k.grid.cells } }
        with
          grid :=
            { (updateArmDisablesIfNeeded
                { k with
                    grid :=
                      { k.grid with
                          cells :=
                            updateFirst (fun c' => decide (c'.id = c1.id)) fc
                              k.grid.cells } }).grid
              with
                cells :=
                  updateFirst (fun c' => decide (c'.id = c2.id)) fc
                    (updateArmDisablesIfNeeded
                      { k with
                          grid :=
                            { k.grid with
                                cells :=
                                  updateFirst (fun c' => decide (c'.id = c1.id)) fc
                                    k.grid.cells } }).grid.cells } }
      hlbB w hw hm

lemma arm_cascade_right (k : KnightState) (c1 c2 : GridCell)
    (hnd : (k.grid.cells.map (·.id)).Nodup)
    (hfilter : ((k.grid.cells.filter fun c => decide (c.group = 3)).filter fun c =>
        decide (((k.grid.width : ℚ) - 1) / 2 < (c.x : ℚ))) = [c1, c2])
    (hcrit1 : c1.criticallyDamaged = false)
    (hcrit2 : c2.criticallyDamaged = false)
    (hen : ∀ w ∈ k.weapons, w.mount = WeaponMount.ARM_RIGHT → w.disabled = false) :
    (∀ w ∈ (markCellCriticallyDamaged k c1.id).weapons,
        w.mount = WeaponMount.ARM_RIGHT → w.disabled = false)
    ∧ (∀ w ∈ (markCellCriticallyDamaged (markCellCriticallyDamaged k c1.id) c2.id).weapons,
        w.mount = WeaponMount.ARM_RIGHT → w.disabled = true) := by
  set p3 : GridCell → Bool := fun c => decide (c.group = 3) with hp3def
  set pR : GridCell → Bool := fun c => decide (((k.grid.width : ℚ) - 1) / 2 < (c.x : ℚ))
    with hpRdef
  set fc : GridCell → GridCell := fun c' => { c' with criticallyDamaged := true } with hfcdef
  have hc1L : c1 ∈ (k.grid.cells.filter p3).filter pR := by
    rw [hfilter]
    exact List.mem_cons_self _ _
  have hc2L : c2 ∈ (k.grid.cells.filter p3).filter pR := by
    rw [hfilter]
    exact List.mem_cons_of_mem _ (List.mem_cons_self _ _)
  obtain ⟨hc1f3, hpl1⟩ := List.mem_filter.mp hc1L
  obtain ⟨hc1cells, h31⟩ := List.mem_filter.mp hc1f3
  obtain ⟨hc2f3, hpl2⟩ := List.mem_filter.mp hc2L
  obtain ⟨hc2cells, h32⟩ := List.mem_filter.mp hc2f3
  have hg1 : c1.group = 3 := of_decide_eq_true h31
  have hg2 : c2.group = 3 := of_decide_eq_true h32
  have hsub : List.Sublist ((k.grid.cells.filter p3).filter pR) k.grid.cells :=
    (List.filter_sublist _).trans (List.filter_sublist _)
  have hndL := hnd.sublist (hsub.map (·.id))
  rw [hfilter] at hndL
  have hidne : c1.id ≠ c2.id := by
    simp only [List.map_cons, List.map_nil, List.nodup_cons, List.mem_cons,
      List.mem_singleton, List.not_mem_nil, or_false] at hndL
    exact hndL.1
  have huniq1 := uniq_of_nodup k.grid.cells hnd c1 hc1cells
  have hfind1 : k.grid.cells.find? (fun x => decide (x.id = c1.id)) = some c1 :=
    find?_eq_of_mem_nodup k.grid.cells hnd c1 hc1cells
  have hmark1 := markCell_group3 k c1.id c1 hfind1 hcrit1 hg1
  have hfc3 : ∀ x, p3 (fc x) = p3 x := fun x => rfl
  have hfcR : ∀ x, pR (fc x) = pR x := fun x => rfl
  have hLA : ((updateFirst (fun x => decide (x.id = c1.id)) fc k.grid.cells).filter
        p3).filter pR = [fc c1, c2] := by
    rw [filter2_updateFirst fc p3 pR hfc3 hfcR c1.id k.grid.cells c1 huniq1 h31 hpl1]
    rw [hfilter]
    simp [updateFirst]
  have hnd1 : ((updateFirst (fun x => decide (x.id = c1.id)) fc k.grid.cells).map
      (·.id)).Nodup := by
    rw [map_updateFirst (fun c : GridCell => c.id) (fun x => decide (x.id = c1.id)) fc
      (fun x => rfl)]
    exact hnd
  have hc2mem1 : c2 ∈ updateFirst (fun x => decide (x.id = c1.id)) fc k.grid.cells :=
    mem_updateFirst_of_neg _ _ _ c2 hc2cells (decide_eq_false (Ne.symm hidne))
  have hlbA : (decide (2 ≤ (((updateFirst (fun x => decide (x.id = c1.id)) fc
        k.grid.cells).filter p3).filter pR).length) &&
      (((updateFirst (fun x => decide (x.id = c1.id)) fc
        k.grid.cells).filter p3).filter pR).all (·.criticallyDamaged)) = false := by
    rw [hLA]
    simp [hcrit2]
  have hLB : ((updateFirst (fun x => decide (x.id = c2.id)) fc
        (updateFirst (fun x => decide (x.id = c1.id)) fc k.grid.cells)).filter
        p3).filter pR = [fc c1, fc c2] := by
    rw [filter2_updateFirst fc p3 pR hfc3 hfcR c2.id
      (updateFirst (fun x => decide (x.id = c1.id)) fc k.grid.cells) c2
      (uniq_of_nodup _ hnd1 c2 hc2mem1) h32 hpl2]
    rw [hLA]
    simp [updateFirst, decide_eq_false hidne]
  have hlbB : (decide (2 ≤ (((updateFirst (fun x => decide (x.id = c2.id)) fc
        (updateFirst (fun x => decide (x.id = c1.id)) fc k.grid.cells)).filter
        p3).filter pR).length) &&
      (((updateFirst (fun x => decide (x.id = c2.id)) fc
        (updateFirst (fun x => decide (x.id = c1.id)) fc k.grid.cells)).filter
        p3).filter pR).all (·.criticallyDamaged)) = true := by
    rw [hLB]
    simp
  refine ⟨?_, ?_⟩
  · intro w hw hm
    rw [hmark1] at hw
    exact updateArm_right_enabled
      { k with
          grid :=
            { k.grid with
                cells := updateFirst (fun c' => decide (c'.id = c1.id)) fc k.grid.cells } }
      hlbA (fun w' hw' hm' => hen w' hw' hm') w hw hm
  · intro w hw hm
    rw [hmark1] at hw
    have hfind2 : (updateArmDisablesIfNeeded
        { k with
            grid :=
              { k.grid with
                  cells :=
                    updateFirst (fun c' => decide (c'.id = c1.id)) fc
                      k.grid.cells } }).grid.cells.find?
        (fun x => decide (x.id = c2.id)) = some c2 :=
      find?_eq_of_mem_nodup _ hnd1 c2 hc2mem1
    have hmark2 := markCell_group3
      (updateArmDisablesIfNeeded
        { k with
            grid :=
              { k.grid with
                  cells :=
                    updateFirst (fun c' => decide (c'.id = c1.id)) fc k.grid.cells } })
      c2.id c2 hfind2 hcrit2 hg2
    rw [hmark2] at hw
    exact updateArm_right_disabled
      { updateArmDisablesIfNeeded
          { k with
              grid :=
                { k.grid with
                    cells := updateFirst (fun c' => decide (c'.id = c1.id)) fc k.grid.cells } }
        with
          grid :=
            { (updateArmDisablesIfNeeded
                { k with
                    grid :=
                      { k.grid with
                          cells :=
                            updateFirst (fun c' => decide (c'.id = c1.id)) fc
                              k.grid.cells } }).grid
              with
                cells :=
                  updateFirst (fun c' => decide (c'.id = c2.id)) fc
                    (updateArmDisablesIfNeeded
                      { k with
                          grid :=
                            { k.grid with
                                cells :=
                                  updateFirst (fun c' => decide (c'.id = c1.id)) fc
                                    k.grid.cells } }).grid.cells } }
      hlbB w hw hm

/-- C9: in a grid whose group-3 cells left of the midline are exactly two
cells (and symmetrically right of it), critically damaging the first leaves
the corresponding arm's weapons enabled, and critically damaging the second
disables every weapon mounted on that arm, because the arm-disable condition
is recomputed after every group-3 critical. -/
theorem claim_C9_arm_disable_cascade :
    (∀ (k : KnightState) (c1 c2 : GridCell),
      (k.grid.cells.map (·.id)).Nodup →
      ((k.grid.cells.filter fun c => decide (c.group = 3)).filter fun c =>
          decide ((c.x : ℚ) < ((k.grid.width : ℚ) - 1) / 2)) = [c1, c2] →
      c1.criticallyDamaged = false → c2.criticallyDamaged = false →
      (∀ w ∈ k.weapons, w.mount = WeaponMount.ARM_LEFT → w.disabled = false) →
      ((markCellCriticallyDamaged k c1.id).weapons.all
          fun w => !(decide (w.mount = WeaponMount.ARM_LEFT)) || !w.disabled) = true
      ∧ ((markCellCriticallyDamaged (markCellCriticallyDamaged k c1.id) c2.id).weapons.all
          fun w => !(decide (w.mount = WeaponMount.ARM_LEFT)) || w.disabled) = true)
    ∧ (∀ (k : KnightState) (c1 c2 : GridCell),
      (k.grid.cells.map (·.id)).Nodup →
      ((k.grid.cells.filter fun c => decide (c.group = 3)).filter fun c =>
          decide (((k.grid.width : ℚ) - 1) / 2 < (c.x : ℚ))) = [c1, c2] →
      c1.criticallyDamaged = false → c2.criticallyDamaged = false →
      (∀ w ∈ k.weapons, w.mount = WeaponMount.ARM_RIGHT → w.disabled = false) →
      ((markCellCriticallyDamaged k c1.id).weapons.all
          fun w => !(decide (w.mount = WeaponMount.ARM_RIGHT)) || !w.disabled) = true
      ∧ ((markCellCriticallyDamaged (markCellCriticallyDamaged k c1.id) c2.id).weapons.all
          fun w => !(decide (w.mount = WeaponMount.ARM_RIGHT)) || w.disabled) = true) := by
  constructor
  · intro k c1 c2 hnd hf h1 h2 hen
    obtain ⟨ha, hb⟩ := arm_cascade_left k c1 c2 hnd hf h1 h2 hen
    constructor
    · rw [List.all_eq_true]
      intro w hw
      by_cases hm : w.mount = WeaponMount.ARM_LEFT
      · simp [hm, ha w hw hm]
      · simp [hm]
    · rw [List.all_eq_true]
      intro w hw
      by_cases hm : w.mount = WeaponMount.ARM_LEFT
      · simp [hm, hb w hw hm]
      · simp [hm]
  · intro k c1 c2 hnd hf h1 h2 hen
    obtain ⟨ha, hb⟩ := arm_cascade_right k c1 c2 hnd hf h1 h2 hen
    constructor
    · rw [List.all_eq_true]
      intro w hw
      by_cases hm : w.mount = WeaponMount.ARM_RIGHT
      · simp [hm, ha w hw hm]
      · simp [hm]
    · rw [List.all_eq_true]
      intro w hw
      by_cases hm : w.mount = WeaponMount.ARM_RIGHT
      · simp [hm, hb w hw hm]
      · simp [hm]

/-- C9 witness: in the four-arm-cell example grid, after the first left-arm
cell goes critical the left-arm weapon is still enabled, and after the
second it is disabled. -/
theorem claim_C9_arm_disable_cascade_witness :
    ((markCellCriticallyDamaged knightArms "L1").weapons.all
        fun w => !(decide (w.mount = WeaponMount.ARM_LEFT)) || !w.disabled) = true
    ∧ ((markCellCriticallyDamaged (markCellCriticallyDamaged knightArms "L1") "L2").weapons.all
        fun w => !(decide (w.mount = WeaponMount.ARM_LEFT)) || w.disabled) = true :=
  claim_C9_arm_disable_cascade.1 knightArms (armCellAt "L1" 0) (armCellAt "L2" 1)
    (by decide)
    (by norm_num [knightArms, gridArms, armCellAt, List.filter])
    rfl rfl (by decide)

/-! ## C2: the ion save and the capability flag

`resolveAttackMutating` reads the defender only through its grid, so two
defenders with equal grids (in particular, ones differing only in
`canRotateIonShields`) yield the same outcome. -/

lemma markCell_grid_of_notcrit (k : KnightState) (cid : String) (c : GridCell)
    (h : k.grid.cells.find? (fun c' => decide (c'.id = cid)) = some c)
    (hc : c.criticallyDamaged = false) :
    (markCellCriticallyDamaged k cid).grid =
      { k.grid with
          cells := updateFirst (fun c' => decide (c'.id = cid))
            (fun c' => { c' with criticallyDamaged := true }) k.grid.cells } := by
  unfold markCellCriticallyDamaged
  rw [h]
  simp only [hc, Bool.false_eq_true, if_false]
  split_ifs with hg
  · rw [updateArmDisablesIfNeeded_grid, applyCoreCriticalEffect_grid]
  · rw [applyCoreCriticalEffect_grid]

lemma markCell_grid_congr (k k' : KnightState) (cid : String)
    (hg : k.grid = k'.grid) :
    (markCellCriticallyDamaged k cid).grid = (markCellCriticallyDamaged k' cid).grid := by
  cases hf : k.grid.cells.find? (fun c' => decide (c'.id = cid)) with
  | none =>
    rw [markCell_eq_of_none k cid hf, markCell_eq_of_none k' cid (by rw [← hg]; exact hf)]
    exact hg
  | some c =>
    by_cases hcrit : c.criticallyDamaged = true
    · rw [markCell_eq_of_crit k cid c hf hcrit,
        markCell_eq_of_crit k' cid c (by rw [← hg]; exact hf) hcrit]
      exact hg
    · have hcF : c.criticallyDamaged = false := by simpa using hcrit
      rw [markCell_grid_of_notcrit k cid c hf hcF,
        markCell_grid_of_notcrit k' cid c (by rw [← hg]; exact hf) hcF, hg]

lemma applyDamage_grid_congr (k k' : KnightState) (cid : String) (dmg : ℤ)
    (hg : k.grid = k'.grid) :
    (applyDamageToCell k cid dmg).grid = (applyDamageToCell k' cid dmg).grid := by
  cases hf : k.grid.cells.find? (fun c' => decide (c'.id = cid)) with
  | none =>
    rw [applyDamage_eq_of_none k cid dmg hf,
      applyDamage_eq_of_none k' cid dmg (by rw [← hg]; exact hf)]
    exact hg
  | some c =>
    by_cases hcrit : c.criticallyDamaged = true
    · rw [applyDamage_eq_of_crit k cid dmg c hf hcrit,
        applyDamage_eq_of_crit k' cid dmg c (by rw [← hg]; exact hf) hcrit]
      exact hg
    · have hcF : c.criticallyDamaged = false := by simpa using hcrit
      rw [applyDamage_of_notcrit k cid dmg c hf hcF,
        applyDamage_of_notcrit k' cid dmg c (by rw [← hg]; exact hf) hcF]
      split_ifs with h0
      · apply markCell_grid_congr
        show ({ k.grid with
            cells := updateFirst (fun c' => decide (c'.id = cid))
              (fun c' => { c' with armorPoints := max 0 (c.armorPoints - dmg) })
              k.grid.cells } : Grid) =
          { k'.grid with
            cells := updateFirst (fun c' => decide (c'.id = cid))
              (fun c' => { c' with armorPoints := max 0 (c.armorPoints - dmg) })
              k'.grid.cells }
        rw [hg]
      · show ({ k.grid with
            cells := updateFirst (fun c' => decide (c'.id = cid))
              (fun c' => { c' with armorPoints := max 0 (c.armorPoints - dmg) })
              k.grid.cells } : Grid) =
          { k'.grid with
            cells := updateFirst (fun c' => decide (c'.id = cid))
              (fun c' => { c' with armorPoints := max 0 (c.armorPoints - dmg) })
              k'.grid.cells }
        rw [hg]

lemma isKnightDestroyed_grid_congr (k k' : KnightState) (hg : k.grid = k'.grid) :
    isKnightDestroyed k = isKnightDestroyed k' := by
  unfold isKnightDestroyed
  rw [hg]

lemma isKnightDestroyed_applyDamage (k : KnightState) (cid : String) (dmg : ℤ) :
    isKnightDestroyed (applyDamageToCell k cid dmg) = destroyedAfter k.grid cid dmg :=
  isKnightDestroyed_grid_congr _ _ (applyDamage_grid_congr _ _ cid dmg rfl)

/-- Characterization of the armour-save/damage tail: the attacker is passed
through, the defender is unchanged on a save and receives exactly one
`applyDamageToCell` on a hit, the ion log is the one passed in, and the
outcome is never SAVED-by-ION. -/
lemma armourAndDamage_cases (rng : ℕ → ℤ) (args : ResolveArgs) (arc : FacingArc)
    (apBonus damageBonus : ℤ) (liveCell : GridCell) (scatter : Option ScatterLog)
    (ionSave : Option IonSaveLog) (k1 : ℕ) :
    (armourAndDamage rng args arc apBonus damageBonus liveCell scatter ionSave k1).attacker
        = args.attacker
    ∧ ((armourAndDamage rng args arc apBonus damageBonus liveCell scatter ionSave k1).outcome.isMissOrSaved
          = true →
        (armourAndDamage rng args arc apBonus damageBonus liveCell scatter ionSave k1).defender
          = args.defender)
    ∧ (∀ tc fc cid arcv ion asv dmg dstr sct,
        (armourAndDamage rng args arc apBonus damageBonus liveCell scatter ionSave k1).outcome
            = .HIT tc fc cid arcv ion asv dmg dstr sct →
        (armourAndDamage rng args arc apBonus damageBonus liveCell scatter ionSave k1).defender
          = applyDamageToCell args.defender cid dmg)
    ∧ (armourAndDamage rng args arc apBonus damageBonus liveCell scatter ionSave k1).outcome.ionLog
        = ionSave
    ∧ (armourAndDamage rng args arc apBonus damageBonus liveCell scatter ionSave k1).outcome.isSavedByIon
        = false := by
  suffices h : ∀ r : ResolveResult,
      armourAndDamage rng args arc apBonus damageBonus liveCell scatter ionSave k1 = r →
      r.attacker = args.attacker
      ∧ (r.outcome.isMissOrSaved = true → r.defender = args.defender)
      ∧ (∀ tc fc cid arcv ion asv dmg dstr sct,
          r.outcome = .HIT tc fc cid arcv ion asv dmg dstr sct →
          r.defender = applyDamageToCell args.defender cid dmg)
      ∧ r.outcome.ionLog = ionSave
      ∧ r.outcome.isSavedByIon = false by
    exact h _ rfl
  intro r hr
  simp only [armourAndDamage] at hr
  repeat' split at hr
  all_goals subst hr
  all_goals refine ⟨rfl, fun hms => ?_, fun tc fc cid arcv ion asv dmg dstr sct hout => ?_,
    rfl, rfl⟩
  all_goals first
    | rfl
    | exact absurd hms (by simp [AttackOutcome.isMissOrSaved])
    | exact AttackOutcome.noConfusion hout
    | (injection hout with h1 h2 h3 h4 h5 h6 h7 h8 h9; subst h3; subst h7; rfl)

/-- `scatterResolve` reads the defender only through its grid, so it ignores
the `canRotateIonShields` flag. -/
lemma scatterResolve_flag (rng : ℕ → ℤ) (args : ResolveArgs) (horizMod : ℤ)
    (s : GridCell) (b : Bool) :
    scatterResolve rng { args with defender := { args.defender with canRotateIonShields := b } }
        horizMod s
      = scatterResolve rng args horizMod s := rfl

set_option maxHeartbeats 1000000 in
/-- The armour-save/damage tail yields the same outcome whatever the
defender's `canRotateIonShields` flag: the defender is read only through its
grid. -/
lemma armourAndDamage_outcome_flag (rng : ℕ → ℤ) (args : ResolveArgs) (arc : FacingArc)
    (apBonus damageBonus : ℤ) (liveCell : GridCell) (scatter : Option ScatterLog)
    (ionSave : Option IonSaveLog) (k1 : ℕ) (b : Bool) :
    (armourAndDamage rng { args with defender := { args.defender with canRotateIonShields := b } }
        arc apBonus damageBonus liveCell scatter ionSave k1).outcome
      = (armourAndDamage rng args arc apBonus damageBonus liveCell scatter ionSave k1).outcome := by
  simp only [armourAndDamage, isKnightDestroyed_applyDamage]
  repeat' (split <;> try simp only [*, ite_true, ite_false])

set_option maxHeartbeats 1000000 in
/-- C2 (amended): an ion-save die is rolled exactly in the situations where
the outcome carries an ion log; whenever it does, the weapon is
scatter-capable and the incoming arc equals the defender's protected arc
(`defenderIonShieldArc`, defaulting to FRONT) — the `canRotateIonShields`
capability flag is *not* part of the condition; the save needs an unmodified
4+, and on success the attack is SAVED by ION before any armour-save log is
produced.  Moreover flipping the defender's `canRotateIonShields` flag to
any value never changes the outcome: attack resolution never consults the
flag. -/
theorem claim_C2_ion_save :
    ∀ (bearing : Vec2 → Vec2 → ℚ) (rng : ℕ → ℤ) (args : ResolveArgs) (b : Bool),
      (∀ l, (resolveAttackMutating bearing rng args).outcome.ionLog = some l →
        args.weapon.scatter = true
        ∧ incomingArc bearing args.defenderPos args.defenderFacingDeg args.attackerPos
            = args.defenderIonShieldArc.getD .FRONT
        ∧ l.attempted = true ∧ l.needed = 4 ∧ (l.success = true ↔ 4 ≤ l.die)
        ∧ (l.success = true →
            (resolveAttackMutating bearing rng args).outcome.isSavedByIon = true
            ∧ (resolveAttackMutating bearing rng args).outcome.armourLog = none))
      ∧ (resolveAttackMutating bearing rng
            { args with defender := { args.defender with canRotateIonShields := b } }).outcome
          = (resolveAttackMutating bearing rng args).outcome := by
  intro bearing rng args b
  refine ⟨?_, ?_⟩
  · suffices h : ∀ r : ResolveResult, resolveAttackMutating bearing rng args = r →
        ∀ l, r.outcome.ionLog = some l →
          args.weapon.scatter = true
          ∧ incomingArc bearing args.defenderPos args.defenderFacingDeg args.attackerPos
              = args.defenderIonShieldArc.getD .FRONT
          ∧ l.attempted = true ∧ l.needed = 4 ∧ (l.success = true ↔ 4 ≤ l.die)
          ∧ (l.success = true →
              r.outcome.isSavedByIon = true ∧ r.outcome.armourLog = none) by
      exact h _ rfl
    intro r hr
    simp only [resolveAttackMutating] at hr
    repeat' split at hr
    all_goals subst hr
    all_goals intro l hl
    all_goals try rw [(armourAndDamage_cases rng args _ _ _ _ _ _ _).2.2.2.1] at hl
    all_goals first
      | exact Option.noConfusion hl
      | (injection hl with hl'
         subst hl'
         have hion : (args.weapon.scatter && decide
             (incomingArc bearing args.defenderPos args.defenderFacingDeg args.attackerPos
               = args.defenderIonShieldArc.getD .FRONT)) = true := by assumption
         rw [Bool.and_eq_true] at hion
         obtain ⟨hsc, harc⟩ := hion
         refine ⟨hsc, of_decide_eq_true harc, rfl, rfl,
           ⟨fun h => of_decide_eq_true h, fun h => decide_eq_true h⟩, ?_⟩
         first
           | exact fun _ => ⟨rfl, rfl⟩
           | exact fun hsucc => absurd (of_decide_eq_true hsucc) (by assumption))
  · simp only [resolveAttackMutating, scatterResolve_flag]
    repeat' first
      | (split <;> try simp only [*, ite_true, ite_false])
      | exact armourAndDamage_outcome_flag rng args _ _ _ _ _ _ _ b

/-- C2 witness: in the `argsC2` scenario (flag revoked, ranged attack on the
protected arc, ion die forced to 4) the theorem yields the gating facts and
the SAVED-by-ION resolution with no armour-save log. -/
theorem claim_C2_ion_save_witness :
    argsC2.weapon.scatter = true
    ∧ incomingArc zeroBearing argsC2.defenderPos argsC2.defenderFacingDeg argsC2.attackerPos
        = argsC2.defenderIonShieldArc.getD .FRONT
    ∧ (resolveAttackMutating zeroBearing oneRng argsC2).outcome.isSavedByIon = true
    ∧ (resolveAttackMutating zeroBearing oneRng argsC2).outcome.armourLog = none := by
  have h := (claim_C2_ion_save zeroBearing oneRng argsC2 false).1
    { attempted := true, die := 4, needed := 4, success := true }
    (by simp [resolveAttackMutating, scatterResolve, armourAndDamage, argsC2,
      knightNoIon, knightA, gridA, cellA1, weaponTestCannon, arc_front_eval, drawDie,
      horizontalShift, verticalShift, AttackOutcome.ionLog])
  exact ⟨h.1, h.2.1, (h.2.2.2.2.2 rfl).1, (h.2.2.2.2.2 rfl).2⟩

/-! ## C10: no state mutation without a HIT -/

set_option maxHeartbeats 1000000 in
/-- C10: attack resolution never changes the attacker; when the outcome is
MISS or SAVED the defender is returned completely unchanged; and when the
outcome is HIT the new defender state is exactly one `applyDamageToCell`
call on the final cell with the rolled damage. -/
theorem claim_C10_mutation_only_on_hit :
    ∀ (bearing : Vec2 → Vec2 → ℚ) (rng : ℕ → ℤ) (args : ResolveArgs),
      ((resolveAttackMutating bearing rng args).attacker = args.attacker)
      ∧ ((resolveAttackMutating bearing rng args).outcome.isMissOrSaved = true →
          (resolveAttackMutating bearing rng args).defender = args.defender)
      ∧ (∀ tc fc cid arcv ion asv dmg dstr sct,
          (resolveAttackMutating bearing rng args).outcome =
            .HIT tc fc cid arcv ion asv dmg dstr sct →
          (resolveAttackMutating bearing rng args).defender =
            applyDamageToCell args.defender cid dmg) := by
  intro bearing rng args
  suffices h : ∀ r : ResolveResult, resolveAttackMutating bearing rng args = r →
      r.attacker = args.attacker
      ∧ (r.outcome.isMissOrSaved = true → r.defender = args.defender)
      ∧ (∀ tc fc cid arcv ion asv dmg dstr sct,
          r.outcome = .HIT tc fc cid arcv ion asv dmg dstr sct →
          r.defender = applyDamageToCell args.defender cid dmg) by
    exact h _ rfl
  intro r hr
  simp only [resolveAttackMutating] at hr
  repeat' split at hr
  all_goals subst hr
  all_goals first
    | exact ⟨rfl, fun hms => rfl,
        fun tc fc cid arcv ion asv dmg dstr sct hout => AttackOutcome.noConfusion hout⟩
    | exact ⟨(armourAndDamage_cases rng args _ _ _ _ _ _ _).1,
        fun hms => (armourAndDamage_cases rng args _ _ _ _ _ _ _).2.1 hms,
        fun tc fc cid arcv ion asv dmg dstr sct hout =>
          (armourAndDamage_cases rng args _ _ _ _ _ _ _).2.2.1
            tc fc cid arcv ion asv dmg dstr sct hout⟩

/-- C10 witness: the off-grid MISS of the C3 scenario leaves the defender
untouched. -/
theorem claim_C10_mutation_only_on_hit_witness :
    (resolveAttackMutating zeroBearing oneRng argsC3).defender = argsC3.defender :=
  (claim_C10_mutation_only_on_hit zeroBearing oneRng argsC3).2.1 (by
    simp [resolveAttackMutating, scatterResolve, armourAndDamage, argsC3, knightA,
      gridA, cellA1, weaponTestCannon, arc_front_eval, drawDie, horizontalShift,
      verticalShift, AttackOutcome.isMissOrSaved])


/-! ## C8: pathfinding soundness -/

lemma lookupKey_mem : ∀ {prev : List ((ℤ × ℤ) × (ℤ × ℤ))} {k v : ℤ × ℤ},
    lookupKey prev k = some v → (k, v) ∈ prev := by
  intro prev
  induction prev with
  | nil => intro k v h; exact Option.noConfusion h
  | cons kv rest ih =>
    intro k v h
    rw [lookupKey] at h
    split at h
    · rename_i heq
      injection h with h'
      subst h'
      subst heq
      exact List.mem_cons_self _ _
    · exact List.mem_cons_of_mem _ (ih h)

lemma lookupKey_eq_of_mem_nodup :
    ∀ {prev : List ((ℤ × ℤ) × (ℤ × ℤ))} {k v : ℤ × ℤ},
      (prev.map Prod.fst).Nodup → (k, v) ∈ prev → lookupKey prev k = some v := by
  intro prev
  induction prev with
  | nil => intro k v _ h; exact absurd h (List.not_mem_nil _)
  | cons kv rest ih =>
    intro k v hnd hm
    rw [List.map_cons, List.nodup_cons] at hnd
    rw [lookupKey]
    rcases List.mem_cons.mp hm with heq | hmem
    · rw [if_pos (congrArg Prod.fst heq.symm)]
      rw [← heq]
    · rw [if_neg ?_]
      · exact ih hnd.2 hmem
      · intro hk
        exact hnd.1 (hk ▸ (List.mem_map.mpr ⟨(k, v), hmem, rfl⟩))

lemma Reaches.mono {prev : List ((ℤ × ℤ) × (ℤ × ℤ))} {s : ℤ × ℤ} :
    ∀ {fuel fuel' : ℕ} {k : ℤ × ℤ}, Reaches prev s fuel k → fuel ≤ fuel' →
      Reaches prev s fuel' k := by
  intro fuel fuel' k h
  induction h generalizing fuel' with
  | base fuel back hlook =>
    intro hle
    obtain ⟨f', rfl⟩ := Nat.exists_eq_add_of_le hle
    rw [Nat.add_right_comm]
    exact .base _ back hlook
  | step fuel back p hlook hne hr ih =>
    intro hle
    obtain ⟨f', rfl⟩ := Nat.exists_eq_add_of_le hle
    rw [Nat.add_right_comm]
    exact .step _ back p hlook hne (ih (Nat.le_add_right _ _))

lemma wf_reaches (s : ℤ × ℤ) (full : List ((ℤ × ℤ) × (ℤ × ℤ)))
    (hnd : (full.map Prod.fst).Nodup) :
    ∀ prev : List ((ℤ × ℤ) × (ℤ × ℤ)), prev <:+ full → wfPrev s prev →
      ∀ k ∈ prev.map Prod.fst, Reaches full s prev.length k := by
  intro prev
  induction prev with
  | nil => intro _ _ k hk; exact absurd hk (List.not_mem_nil _)
  | cons kv rest ih =>
    obtain ⟨k0, v0⟩ := kv
    intro hsuf hwf k hk
    obtain ⟨hwf1, hwfrest⟩ := hwf
    have hsufrest : rest <:+ full := (List.suffix_cons (k0, v0) rest).trans hsuf
    rw [List.map_cons] at hk
    rcases List.mem_cons.mp hk with heq | hmem
    · have hlook : lookupKey full k0 = some v0 :=
        lookupKey_eq_of_mem_nodup hnd (hsuf.subset (List.mem_cons_self _ _))
      subst heq
      by_cases hv : v0 = s
      · exact .base rest.length k (hv ▸ hlook)
      · have hvmem : v0 ∈ rest.map Prod.fst := hwf1.resolve_left hv
        exact .step rest.length k v0 hlook hv (ih hsufrest hwfrest v0 hvmem)
    · exact (ih hsufrest hwfrest k hmem).mono (Nat.le_succ _)

lemma reconstructGo_spec {prev : List ((ℤ × ℤ) × (ℤ × ℤ))} {s : ℤ × ℤ} :
    ∀ {fuel : ℕ} {back : ℤ × ℤ}, Reaches prev s fuel back →
      ∀ out, ∃ chain, reconstructGo prev s fuel back out = (out ++ chain).reverse
        ∧ chain ≠ [] ∧ chain.getLast? = some s
        ∧ List.Chain' (fun a b => lookupKey prev a = some b) (back :: chain) := by
  intro fuel back h
  induction h with
  | base fuel back hlook =>
    intro out
    refine ⟨[s], ?_, by simp, by simp, ?_⟩
    · simp only [reconstructGo, hlook]
      simp
    · exact List.Chain'.cons hlook (List.chain'_singleton _)
  | step fuel back p hlook hne hr ih =>
    intro out
    obtain ⟨chain, heq, hcne, hlast, hchain⟩ := ih (out ++ [p])
    refine ⟨p :: chain, ?_, by simp, ?_, ?_⟩
    · simp only [reconstructGo, hlook]
      rw [if_neg hne, heq, List.append_assoc]
      rfl
    · obtain ⟨c, cs, rfl⟩ : ∃ c cs, chain = c :: cs := by
        cases chain with
        | nil => exact absurd rfl hcne
        | cons c cs => exact ⟨c, cs, rfl⟩
      rw [List.getLast?_cons_cons]
      exact hlast
    · exact List.Chain'.cons hlook hchain

lemma chain_values {prev : List ((ℤ × ℤ) × (ℤ × ℤ))} :
    ∀ {b : ℤ × ℤ} {chain : List (ℤ × ℤ)},
      List.Chain' (fun a c => lookupKey prev a = some c) (b :: chain) →
      ∀ x ∈ chain, ∃ k, (k, x) ∈ prev := by
  intro b chain
  induction chain generalizing b with
  | nil => intro _ x hx; exact absurd hx (List.not_mem_nil _)
  | cons c cs ih =>
    intro hch x hx
    have h1 : lookupKey prev b = some c := (List.chain'_cons.mp hch).1
    rcases List.mem_cons.mp hx with rfl | hmem
    · exact ⟨b, lookupKey_mem h1⟩
    · exact ih (List.chain'_cons.mp hch).2 x hmem

lemma reconstruct_valid (blocked : ℤ × ℤ → Bool) (s g : ℤ × ℤ)
    (prev : List ((ℤ × ℤ) × (ℤ × ℤ)))
    (hnd : (prev.map Prod.fst).Nodup) (hwf : wfPrev s prev)
    (hval : ∀ kv ∈ prev, blocked kv.2 = false)
    (hadj : ∀ kv ∈ prev, Adj kv.2 kv.1)
    (hg : g ∈ prev.map Prod.fst) (hgb : blocked g = false) :
    ValidRoute blocked s g (reconstructPath prev g s) := by
  have hre : Reaches prev s prev.length g :=
    wf_reaches s prev hnd prev (List.suffix_refl _) hwf g hg
  obtain ⟨chain, heq, hcne, hlast, hchain⟩ := reconstructGo_spec hre [g]
  rw [reconstructPath, heq]
  have hrw : ([g] ++ chain).reverse = chain.reverse ++ [g] := by
    rw [List.reverse_append]
    rfl
  rw [hrw]
  obtain ⟨c, cs, rfl⟩ : ∃ c cs, chain = c :: cs := by
    cases chain with
    | nil => exact absurd rfl hcne
    | cons c cs => exact ⟨c, cs, rfl⟩
  refine ⟨by simp, ?_, List.getLast?_concat _, ?_, ?_⟩
  · rw [List.head?_append_of_ne_nil _ (by simp)]
    rw [List.head?_reverse]
    exact hlast
  · have hflip : List.Chain' (fun a b => Adj b a) (g :: c :: cs) := by
      refine List.Chain'.imp ?_ hchain
      intro a b hab
      exact hadj (a, b) (lookupKey_mem hab)
    have := List.chain'_reverse.mpr hflip
    simpa only [List.reverse_cons] using this
  · intro x hx
    rcases List.mem_append.mp hx with hx1 | hx2
    · obtain ⟨k, hk⟩ := chain_values hchain x (List.mem_reverse.mp hx1)
      exact hval (k, x) hk
    · rw [List.mem_singleton.mp hx2]
      exact hgb

lemma bfsDirsLoop_sound (blocked : ℤ × ℤ → Bool) (s g cur : ℤ × ℤ) :
    ∀ (ds : List (ℤ × ℤ)) (prev : List ((ℤ × ℤ) × (ℤ × ℤ)))
      (seen q : List (ℤ × ℤ)),
      (∀ d ∈ ds, d ∈ bfsDirs) → cur ∈ seen →
      BfsInv blocked s q prev seen →
      (∀ path, bfsDirsLoop blocked s g cur ds prev seen q = .inl path →
          ValidRoute blocked s g path)
      ∧ (∀ prev' seen' q',
          bfsDirsLoop blocked s g cur ds prev seen q = .inr (prev', seen', q') →
          BfsInv blocked s q' prev' seen') := by
  intro ds
  induction ds with
  | nil =>
    intro prev seen q _ _ hinv
    constructor
    · intro path h
      rw [bfsDirsLoop] at h
      exact Sum.noConfusion h
    · intro prev' seen' q' h
      rw [bfsDirsLoop] at h
      injection h with h'
      injection h' with h1 h2
      injection h2 with h2 h3
      subst h1; subst h2; subst h3
      exact hinv
  | cons d ds ih =>
    intro prev seen q hds hcur hinv
    have hds' : ∀ d' ∈ ds, d' ∈ bfsDirs := fun d' hd' => hds d' (List.mem_cons_of_mem _ hd')
    obtain ⟨hseenub, hq, hnd, hdom, hvalm, hadj, hs, hchar, hwf⟩ := hinv
    by_cases h1 : (cur.1 + d.1, cur.2 + d.2) ∈ seen
    · have hstep : bfsDirsLoop blocked s g cur (d :: ds) prev seen q
          = bfsDirsLoop blocked s g cur ds prev seen q := by
        rw [bfsDirsLoop]
        rw [if_pos h1]
      rw [hstep]
      exact ih prev seen q hds' hcur ⟨hseenub, hq, hnd, hdom, hvalm, hadj, hs, hchar, hwf⟩
    · by_cases h2 : blocked (cur.1 + d.1, cur.2 + d.2) = true
      · have hstep : bfsDirsLoop blocked s g cur (d :: ds) prev seen q
            = bfsDirsLoop blocked s g cur ds prev seen q := by
          rw [bfsDirsLoop]
          rw [if_neg h1, if_pos h2]
        rw [hstep]
        exact ih prev seen q hds' hcur ⟨hseenub, hq, hnd, hdom, hvalm, hadj, hs, hchar, hwf⟩
      · have h2f : blocked (cur.1 + d.1, cur.2 + d.2) = false := by
          simpa using h2
        have hknot : (cur.1 + d.1, cur.2 + d.2) ∉ prev.map Prod.fst := by
          intro hmem
          obtain ⟨kv, hkv, hfst⟩ := List.mem_map.mp hmem
          exact h1 (hfst ▸ hdom kv hkv)
        have hcuror : cur = s ∨ cur ∈ prev.map Prod.fst := hchar cur hcur
        have hadjnew : Adj cur (cur.1 + d.1, cur.2 + d.2) :=
          ⟨d, hds d (List.mem_cons_self _ _), rfl⟩
        by_cases h3 : (cur.1 + d.1, cur.2 + d.2) = g
        · have hstep : bfsDirsLoop blocked s g cur (d :: ds) prev seen q
              = .inl (reconstructPath (((cur.1 + d.1, cur.2 + d.2), cur) :: prev) g s) := by
            rw [bfsDirsLoop]
            rw [if_neg h1, if_neg h2, if_pos h3]
          constructor
          · intro path h
            rw [hstep] at h
            injection h with h'
            subst h'
            apply reconstruct_valid
            · rw [List.map_cons, List.nodup_cons]
              exact ⟨hknot, hnd⟩
            · exact ⟨hcuror, hwf⟩
            · intro kv hkv
              rcases List.mem_cons.mp hkv with rfl | hmem
              · exact hseenub cur hcur
              · exact hseenub kv.2 (hvalm kv hmem)
            · intro kv hkv
              rcases List.mem_cons.mp hkv with rfl | hmem
              · exact hadjnew
              · exact hadj kv hmem
            · rw [List.map_cons]
              exact h3 ▸ List.mem_cons_self _ _
            · exact h3 ▸ h2f
          · intro prev' seen' q' h
            rw [hstep] at h
            exact Sum.noConfusion h
        · have hstep : bfsDirsLoop blocked s g cur (d :: ds) prev seen q
              = bfsDirsLoop blocked s g cur ds
                  (((cur.1 + d.1, cur.2 + d.2), cur) :: prev)
                  ((cur.1 + d.1, cur.2 + d.2) :: seen)
                  (q ++ [(cur.1 + d.1, cur.2 + d.2)]) := by
            rw [bfsDirsLoop]
            rw [if_neg h1, if_neg h2, if_neg h3]
          rw [hstep]
          apply ih _ _ _ hds' (List.mem_cons_of_mem _ hcur)
          refine ⟨?_, ?_, ?_, ?_, ?_, ?_, ?_, ?_, ?_⟩
          · intro n hn
            rcases List.mem_cons.mp hn with rfl | hmem
            · exact h2f
            · exact hseenub n hmem
          · intro n hn
            rcases List.mem_append.mp hn with hmem | hone
            · exact List.mem_cons_of_mem _ (hq n hmem)
            · rw [List.mem_singleton.mp hone]
              exact List.mem_cons_self _ _
          · rw [List.map_cons, List.nodup_cons]
            exact ⟨hknot, hnd⟩
          · intro kv hkv
            rcases List.mem_cons.mp hkv with rfl | hmem
            · exact List.mem_cons_self _ _
            · exact List.mem_cons_of_mem _ (hdom kv hmem)
          · intro kv hkv
            rcases List.mem_cons.mp hkv with rfl | hmem
            · exact List.mem_cons_of_mem _ hcur
            · exact List.mem_cons_of_mem _ (hvalm kv hmem)
          · intro kv hkv
            rcases List.mem_cons.mp hkv with rfl | hmem
            · exact hadjnew
            · exact hadj kv hmem
          · exact List.mem_cons_of_mem _ hs
          · intro n hn
            rcases List.mem_cons.mp hn with rfl | hmem
            · right
              rw [List.map_cons]
              exact List.mem_cons_self _ _
            · rcases hchar n hmem with rfl | hmemk
              · exact Or.inl rfl
              · right
                rw [List.map_cons]
                exact List.mem_cons_of_mem _ hmemk
          · exact ⟨hcuror, hwf⟩

lemma bfsLoop_sound (blocked : ℤ × ℤ → Bool) (s g : ℤ × ℤ) :
    ∀ (fuel : ℕ) (q : List (ℤ × ℤ)) (prev : List ((ℤ × ℤ) × (ℤ × ℤ)))
      (seen : List (ℤ × ℤ)),
      BfsInv blocked s q prev seen →
      ∀ path, bfsLoop blocked s g fuel q prev seen = some path →
        ValidRoute blocked s g path := by
  intro fuel
  induction fuel with
  | zero =>
    intro q prev seen _ path h
    rw [bfsLoop] at h
    exact Option.noConfusion h
  | succ n ih =>
    intro q prev seen hinv path h
    cases q with
    | nil =>
      rw [bfsLoop] at h
      exact Option.noConfusion h
    | cons cur qt =>
      rw [bfsLoop] at h
      have hcur : cur ∈ seen := hinv.2.1 cur (List.mem_cons_self _ _)
      have hqt : BfsInv blocked s qt prev seen := by
        obtain ⟨h1, h2, h3⟩ := hinv
        exact ⟨h1, fun n hn => h2 n (List.mem_cons_of_mem _ hn), h3⟩
      cases hd : bfsDirsLoop blocked s g cur bfsDirs prev seen qt with
      | inl p' =>
        rw [hd] at h
        injection h with h'
        subst h'
        exact (bfsDirsLoop_sound blocked s g cur bfsDirs prev seen qt
          (fun _ hd' => hd') hcur hqt).1 _ hd
      | inr st =>
        rw [hd] at h
        obtain ⟨prev', seen', q'⟩ := st
        exact ih q' prev' seen'
          ((bfsDirsLoop_sound blocked s g cur bfsDirs prev seen qt
            (fun _ hd' => hd') hcur hqt).2 prev' seen' q' hd) path h

set_option maxHeartbeats 1000000 in
/-- C8: the grid pathfinder is sound: a returned path is a non-empty
4-connected cell sequence from the rounded start to the rounded goal that
avoids every blocked cell; and it returns `none` whenever the rounded start
or rounded goal is blocked, or no 4-connected route through unblocked cells
exists at all. -/
theorem claim_C8_pathfinding_soundness :
    ∀ (start goal : Vec2) (terrain : List TerrainPiece),
      (∀ path, findPathManhattan start goal terrain = some path →
        ValidRoute (isBlocked terrain 48)
          (jsRound start.x, jsRound start.y) (jsRound goal.x, jsRound goal.y) path)
      ∧ (isBlocked terrain 48 (jsRound start.x, jsRound start.y) = true →
          findPathManhattan start goal terrain = none)
      ∧ (isBlocked terrain 48 (jsRound goal.x, jsRound goal.y) = true →
          findPathManhattan start goal terrain = none)
      ∧ ((¬ ∃ p, ValidRoute (isBlocked terrain 48)
            (jsRound start.x, jsRound start.y) (jsRound goal.x, jsRound goal.y) p) →
          findPathManhattan start goal terrain = none) := by
  intro start goal terrain
  have hsound : ∀ path, findPathManhattan start goal terrain = some path →
      ValidRoute (isBlocked terrain 48)
        (jsRound start.x, jsRound start.y) (jsRound goal.x, jsRound goal.y) path := by
    intro path h
    rw [findPathManhattan] at h
    split at h
    · exact Option.noConfusion h
    · split at h
      · exact Option.noConfusion h
      · rename_i hbs hbg
        split at h
        · rename_i hsg
          injection h with h'
          subst h'
          refine ⟨by simp, by simp, by rw [hsg]; simp, by simp, ?_⟩
          intro n hn
          rw [List.mem_singleton.mp hn]
          simpa using hbs
        · apply bfsLoop_sound _ _ _ _ _ _ _ _ path h
          refine ⟨?_, ?_, List.nodup_nil, ?_, ?_, ?_, ?_, ?_, trivial⟩
          · intro n hn
            rw [List.mem_singleton.mp hn]
            simpa using hbs
          · intro n hn
            exact hn
          · intro kv hkv
            exact absurd hkv (List.not_mem_nil _)
          · intro kv hkv
            exact absurd hkv (List.not_mem_nil _)
          · intro kv hkv
            exact absurd hkv (List.not_mem_nil _)
          · exact List.mem_singleton.mpr rfl
          · intro n hn
            exact Or.inl (List.mem_singleton.mp hn)
  refine ⟨hsound, ?_, ?_, ?_⟩
  · intro hb
    rw [findPathManhattan]
    rw [if_pos hb]
  · intro hb
    rw [findPathManhattan]
    rw [if_pos hb]
    split
    · rfl
    · rfl
  · intro hno
    cases hf : findPathManhattan start goal terrain with
    | none => rfl
    | some path => exact absurd ⟨path, hsound path hf⟩ hno

/-- C8 witness: with no terrain and coinciding rounded start and goal the
pathfinder returns the singleton path, which the theorem certifies as a
valid route; and with the start rounded into a hard terrain rectangle the
pathfinder returns `none`. -/
theorem claim_C8_pathfinding_soundness_witness :
    ValidRoute (isBlocked [] 48) ((0 : ℤ), (0 : ℤ)) ((0 : ℤ), (0 : ℤ)) [((0 : ℤ), (0 : ℤ))]
    ∧ findPathManhattan ⟨5, 0⟩ ⟨0, 0⟩ [hardPiece] = none := by
  constructor
  · have h0 : jsRound (0 : ℚ) = 0 := by norm_num [jsRound]
    have hpath : findPathManhattan ⟨0, 0⟩ ⟨0, 0⟩ [] = some [((0 : ℤ), (0 : ℤ))] := by
      rw [findPathManhattan]
      norm_num [isBlocked, jsRound]
    have := (claim_C8_pathfinding_soundness ⟨0, 0⟩ ⟨0, 0⟩ []).1 _ hpath
    simpa [h0] using this
  · apply (claim_C8_pathfinding_soundness ⟨5, 0⟩ ⟨0, 0⟩ [hardPiece]).2.1
    norm_num [isBlocked, jsRound, hardPiece]

end KnightCommander
